import Mathlib

/-!
Verification of the MaxAiCalender action-resolution and execution pipeline.

This file shallowly embeds the two core modules of the repository:

* `azure_api.py` — `parse_azure_response` and the response-handling part of
  `call_azure_openai` (the Intent Extractor);
* `user_event_handler.py` — `handle_calendar_action` and the five handlers
  `handle_message`, `handle_error`, `find_events`, `create_event`,
  `delete_event`, `reschedule_event`.

Python's dynamically typed dict/list values are modelled by the `Json`
inductive; Python exceptions by `PyExc` together with `Except`; Python's
`datetime` objects by the `DT` structure (a civil day number plus a time of
day in microseconds precision, plus an optional fixed UTC offset in minutes,
mirroring `datetime.timezone` offsets).  External collaborators (the
language-model HTTP call, `json.loads`, and the Google calendar service) are
modelled as oracles passed in as parameters; the calendar calls a handler
issues are recorded in a trace.
-/

namespace MaxCal

/-- JSON values as decoded by Python's `json.loads`: `None`, booleans,
numbers, strings, lists and string-keyed dicts (association lists keeping
insertion order, as Python dicts do). -/
inductive Json where
  | null
  | bool (b : Bool)
  | num (n : Int)
  | str (s : String)
  | arr (xs : List Json)
  | obj (kvs : List (String × Json))

/-- Python exception classes that the embedded code can raise. -/
inductive PyExc where
  | jsonDecode
  | indexErr
  | keyErr
  | attrErr
  | typeErr
  | valueErr
deriving DecidableEq

/-- Rendering of an exception as diagnostic text (stands in for `str(e)`). -/
def excStr : PyExc → String
  | .jsonDecode => "JSONDecodeError"
  | .indexErr => "IndexError"
  | .keyErr => "KeyError"
  | .attrErr => "AttributeError"
  | .typeErr => "TypeError"
  | .valueErr => "ValueError"

/-- First-match lookup in an association list (Python dict lookup). -/
def jlookup : List (String × Json) → String → Option Json
  | [], _ => none
  | (k', v) :: t, k => if k' = k then some v else jlookup t k

/-- Python dict assignment `d[k] = v`: replaces the value at an existing key
in place (keeping its position) or appends a new key. -/
def setAssoc : List (String × Json) → String → Json → List (String × Json)
  | [], k, v => [(k, v)]
  | (k', v') :: t, k, v => if k' = k then (k, v) :: t else (k', v') :: setAssoc t k v

/-- Mutation `j[k] = v` of a dict value (only ever applied to dicts here). -/
def jSet (j : Json) (k : String) (v : Json) : Json :=
  match j with
  | .obj kvs => .obj (setAssoc kvs k v)
  | x => x

/-- Python truthiness of a value (`bool(v)`). -/
def pyTruthy : Json → Bool
  | .null => false
  | .bool b => b
  | .num n => n != 0
  | .str s => s.length != 0
  | .arr xs => !xs.isEmpty
  | .obj kvs => !kvs.isEmpty

/-- Python `v.get(k, d)`: dict lookup with default; `AttributeError` when `v`
is not a dict. -/
def pyGet (v : Json) (k : String) (d : Json) : Except PyExc Json :=
  match v with
  | .obj kvs => .ok ((jlookup kvs k).getD d)
  | _ => .error .attrErr

/-- Python `v[0]`: list/str indexing, `IndexError` when empty, `KeyError`
for a dict (JSON dicts have no integer keys), `TypeError` otherwise. -/
def pyIndex0 (v : Json) : Except PyExc Json :=
  match v with
  | .arr [] => .error .indexErr
  | .arr (x :: _) => .ok x
  | .str s => match s.data with
    | [] => .error .indexErr
    | c :: _ => .ok (.str (String.mk [c]))
  | .obj _ => .error .keyErr
  | _ => .error .typeErr

/-- Python `v[k]` with a string key: dict lookup (`KeyError` when missing),
`TypeError` for lists/strings (indices must be integers) and scalars. -/
def pySubscrStr (v : Json) (k : String) : Except PyExc Json :=
  match v with
  | .obj kvs => match jlookup kvs k with
    | some x => .ok x
    | none => .error .keyErr
  | _ => .error .typeErr

/-- ASCII lowercase of a character, as Python `str.lower` does for ASCII. -/
def lowerChar (c : Char) : Char :=
  if 'A' ≤ c ∧ c ≤ 'Z' then Char.ofNat (c.toNat + 32) else c

/-- ASCII lowercase of a string (models Python `str.lower` on the ASCII
strings that occur here). -/
def lowerStr (s : String) : String := String.mk (s.data.map lowerChar)

/-- Whether `n` occurs as a contiguous sublist of `h`. -/
def containsSub (n : List Char) : List Char → Bool
  | [] => n.isEmpty
  | c :: t => n.isPrefixOf (c :: t) || containsSub n t

/-- Python substring test `n in h` on strings. -/
def strIn (n h : String) : Bool := containsSub n.data h.data

/-- Python `k in v`: key test for dicts, membership for lists, substring for
strings, `TypeError` otherwise. -/
def pyIn (k : String) (v : Json) : Except PyExc Bool :=
  match v with
  | .obj kvs => .ok (kvs.any (fun p => p.1 == k))
  | .arr xs => .ok (xs.any (fun x => match x with
      | .str s => s == k
      | _ => false))
  | .str s => .ok (strIn k s)
  | _ => .error .typeErr

/-- ASCII whitespace as stripped by Python `str.strip()`. -/
def wsChar (c : Char) : Bool :=
  c.toNat = 32 || c.toNat = 9 || c.toNat = 10 || c.toNat = 13 ||
    c.toNat = 11 || c.toNat = 12

/-- Strip leading and trailing whitespace from a string. -/
def stripStr (s : String) : String :=
  String.mk (((s.data.dropWhile wsChar).reverse.dropWhile wsChar).reverse)

/-- Python `v.strip()`: whitespace-trim for strings, `AttributeError`
otherwise. -/
def pyStrip (v : Json) : Except PyExc String :=
  match v with
  | .str s => .ok (stripStr s)
  | _ => .error .attrErr

/-- Python `v.lower()`: lowercase for strings, `AttributeError` otherwise. -/
def pyLower (v : Json) : Except PyExc Json :=
  match v with
  | .str s => .ok (.str (lowerStr s))
  | _ => .error .attrErr

/-- Python `json.loads(v)`: the decoder itself is the external `loads`
oracle; a decode failure is `JSONDecodeError`, a non-string argument a
`TypeError`. -/
def pyLoads (loads : String → Option Json) (v : Json) : Except PyExc Json :=
  match v with
  | .str s => match loads s with
    | some j => .ok j
    | none => .error .jsonDecode
  | _ => .error .typeErr

/-- Crude `str(v)` used only to interpolate values into status messages. -/
def pyStr : Json → String
  | .null => "None"
  | .bool true => "True"
  | .bool false => "False"
  | .num n => toString n
  | .str s => s
  | .arr _ => "[...]"
  | .obj _ => "\x7b...\x7d"

/-! ### The datetime model

A `DT` is a Python `datetime`: a civil date held as a day number (days since
1970-01-01, converted to and from year/month/day by the standard civil
calendar algorithms), a time of day, and an optional fixed UTC offset in
minutes (`tzinfo`).  Python datetime arithmetic (`+ timedelta`) acts on the
wall-clock value and keeps `tzinfo`; subtraction of two aware datetimes
compares absolute instants; `astimezone` converts the absolute instant,
assuming the process-local offset for naive values. -/

def usecPerDay : Int := 86400000000

def usecPerHour : Int := 3600000000

structure DT where
  day : Int
  hour : Nat
  minute : Nat
  second : Nat
  usec : Nat
  tz : Option Int
deriving DecidableEq

/-- Time-of-day fields are in range (every `datetime` Python builds
satisfies this). -/
def DT.Valid (d : DT) : Prop :=
  d.hour < 24 ∧ d.minute < 60 ∧ d.second < 60 ∧ d.usec < 1000000

instance (d : DT) : Decidable d.Valid := by
  unfold DT.Valid
  infer_instance

/-- Microseconds since midnight. -/
def DT.timeUsec (d : DT) : Int :=
  ((d.hour * 3600 + d.minute * 60 + d.second) * 1000000 + d.usec : Nat)

/-- Wall-clock microseconds since the epoch (ignoring the offset). -/
def DT.wallUsec (d : DT) : Int := d.day * usecPerDay + d.timeUsec

/-- Rebuild a `DT` from wall-clock microseconds. -/
def fromWallUsec (u : Int) (tz : Option Int) : DT :=
  ⟨u / usecPerDay,
   (u % usecPerDay).toNat / 3600000000,
   ((u % usecPerDay).toNat / 60000000) % 60,
   ((u % usecPerDay).toNat / 1000000) % 60,
   (u % usecPerDay).toNat % 1000000,
   tz⟩

/-- `d + timedelta(microseconds=t)`: wall-clock addition keeping `tzinfo`. -/
def DT.addUsec (d : DT) (t : Int) : DT := fromWallUsec (d.wallUsec + t) d.tz

/-- Absolute instant of an aware datetime, or of a naive one read in the
process-local offset `lo`. -/
def DT.absUsec (d : DT) (lo : Int) : Int :=
  d.wallUsec - (d.tz.getD lo) * 60000000

/-- Python `d - d'` on datetimes: absolute difference for two aware values,
wall difference for two naive ones, `TypeError` when mixed. -/
def pySubDT (a b : DT) : Except PyExc Int :=
  match a.tz, b.tz with
  | some oa, some ob =>
    .ok ((a.wallUsec - oa * 60000000) - (b.wallUsec - ob * 60000000))
  | none, none => .ok (a.wallUsec - b.wallUsec)
  | _, _ => .error .typeErr

/-- Python `d.astimezone(tz)` for a fixed-offset target `target` (minutes):
converts the absolute instant, reading a naive `d` in the process-local
offset `lo`. -/
def pyAstimezone (lo : Int) (target : Int) (d : DT) : DT :=
  fromWallUsec (d.absUsec lo + target * 60000000) (some target)

/-- A Python `time` value (result of `datetime.time()`, which drops
`tzinfo`). -/
structure PyTime where
  hour : Nat
  minute : Nat
  second : Nat
  usec : Nat

/-- Python `d.time()`. -/
def DT.time (d : DT) : PyTime := ⟨d.hour, d.minute, d.second, d.usec⟩

/-- Python `datetime.combine(date, time)` with a naive `time`. -/
def pyCombine (day : Int) (t : PyTime) : DT :=
  ⟨day, t.hour, t.minute, t.second, t.usec, none⟩

/-- Python `d.replace(tzinfo=tz)`. -/
def DT.replaceTz (d : DT) (tz : Option Int) : DT := { d with tz := tz }

/-! ### Civil calendar conversion (Howard Hinnant's algorithms) -/

/-- Day number (days since 1970-01-01) of a civil date. -/
def daysFromCivil (y : Int) (m d : Nat) : Int :=
  let y' : Int := if m ≤ 2 then y - 1 else y
  let era : Int := y' / 400
  let yoe : Int := y' - era * 400
  let mp : Int := if m > 2 then (m : Int) - 3 else (m : Int) + 9
  let doy : Int := (153 * mp + 2) / 5 + (d : Int) - 1
  let doe : Int := yoe * 365 + yoe / 4 - yoe / 100 + doy
  era * 146097 + doe - 719468

/-- Civil date `(year, month, day)` of a day number. -/
def civilFromDays (z0 : Int) : Int × Nat × Nat :=
  let z : Int := z0 + 719468
  let era : Int := z / 146097
  let doe : Int := z - era * 146097
  let yoe : Int := (doe - doe / 1460 + doe / 36524 - doe / 146096) / 365
  let y : Int := yoe + era * 400
  let doy : Int := doe - (365 * yoe + yoe / 4 - yoe / 100)
  let mp : Int := (5 * doy + 2) / 153
  let d : Int := doy - (153 * mp + 2) / 5 + 1
  let m : Int := if mp < 10 then mp + 3 else mp - 9
  ((if m ≤ 2 then y + 1 else y), m.toNat, d.toNat)

def isLeapYear (y : Int) : Bool :=
  (y % 4 == 0 && y % 100 != 0) || y % 400 == 0

def daysInMonth (y : Int) (m : Nat) : Nat :=
  match m with
  | 1 => 31
  | 2 => if isLeapYear y then 29 else 28
  | 3 => 31
  | 4 => 30
  | 5 => 31
  | 6 => 30
  | 7 => 31
  | 8 => 31
  | 9 => 30
  | 10 => 31
  | 11 => 30
  | 12 => 31
  | _ => 0

/-! ### ISO-8601 parsing and formatting (`datetime.fromisoformat` /
`datetime.isoformat`) -/

/-- Decimal digit value of a character. -/
def digitVal (c : Char) : Nat := c.toNat - 48

/-- Read exactly `n` digits. -/
def readDigits : Nat → List Char → Option (Nat × List Char)
  | 0, cs => some (0, cs)
  | n + 1, c :: cs =>
    if c.isDigit then
      match readDigits n cs with
      | some (v, rest) => some (digitVal c * 10 ^ n + v, rest)
      | none => none
    else none
  | _ + 1, [] => none

/-- Read a `±HH:MM` UTC offset, requiring the rest of the input to be
consumed. -/
def readOffset : List Char → Option Int
  | '+' :: cs =>
    match readDigits 2 cs with
    | some (h, ':' :: cs2) =>
      match readDigits 2 cs2 with
      | some (m, []) => if h < 24 ∧ m < 60 then some (h * 60 + m) else none
      | _ => none
    | _ => none
  | '-' :: cs =>
    match readDigits 2 cs with
    | some (h, ':' :: cs2) =>
      match readDigits 2 cs2 with
      | some (m, []) => if h < 24 ∧ m < 60 then some (-(h * 60 + m : Int)) else none
      | _ => none
    | _ => none
  | _ => none

/-- Smart constructor validating the time-of-day fields, as
`datetime.fromisoformat` rejects out-of-range components. -/
def mkDT (day : Int) (h mi s us : Nat) (tz : Option Int) : Option DT :=
  if h < 24 ∧ mi < 60 ∧ s < 60 ∧ us < 1000000 then some ⟨day, h, mi, s, us, tz⟩ else none

/-- Parse the `HH:MM[:SS[.ffffff]][±HH:MM]` tail of an ISO timestamp. -/
def parseTimePart (day : Int) (cs : List Char) : Option DT :=
  match readDigits 2 cs with
  | some (h, ':' :: cs1) =>
    match readDigits 2 cs1 with
    | some (mi, rest1) =>
      let secPart : Option (Nat × List Char) :=
        match rest1 with
        | ':' :: cs2 => readDigits 2 cs2
        | _ => some (0, rest1)
      match secPart with
      | some (s, rest2) =>
        let usPart : Option (Nat × List Char) :=
          match rest2 with
          | '.' :: cs3 => readDigits 6 cs3
          | _ => some (0, rest2)
        match usPart with
        | some (us, rest3) =>
          match rest3 with
          | [] => mkDT day h mi s us none
          | _ =>
            match readOffset rest3 with
            | some off => mkDT day h mi s us (some off)
            | none => none
        | none => none
      | none => none
    | _ => none
  | _ => none

/-- Parse an ISO-8601 date or timestamp, the format accepted here by
`datetime.fromisoformat`: `YYYY-MM-DD` optionally followed by `T` (or a
space) and a time with optional fractional seconds and offset. -/
def parseIsoChars (cs : List Char) : Option DT :=
  match readDigits 4 cs with
  | some (y, '-' :: cs1) =>
    match readDigits 2 cs1 with
    | some (mo, '-' :: cs2) =>
      match readDigits 2 cs2 with
      | some (dy, rest) =>
        if 1 ≤ mo ∧ mo ≤ 12 ∧ 1 ≤ dy ∧ dy ≤ daysInMonth (y : Int) mo then
          let day := daysFromCivil (y : Int) mo dy
          match rest with
          | [] => mkDT day 0 0 0 0 none
          | 'T' :: cs3 => parseTimePart day cs3
          | ' ' :: cs3 => parseTimePart day cs3
          | _ => none
        else none
      | _ => none
    | _ => none
  | _ => none

def parseIso (s : String) : Option DT := parseIsoChars s.data

/-- Python `datetime.fromisoformat(v)`: `ValueError` on an unparsable
string, `TypeError` on a non-string argument. -/
def pyFromIso (v : Json) : Except PyExc DT :=
  match v with
  | .str s => match parseIso s with
    | some d => .ok d
    | none => .error .valueErr
  | _ => .error .typeErr

/-- Left-pad a number with zeros to width `w`. -/
def padZ (w : Nat) (n : Nat) : String :=
  let s := toString n
  String.mk (List.replicate (w - s.length) '0') ++ s

/-- Render a `tzinfo` offset as `isoformat` does (empty for naive). -/
def offString : Option Int → String
  | none => ""
  | some o =>
    (if o < 0 then "-" else "+") ++ padZ 2 (o.natAbs / 60) ++ ":" ++ padZ 2 (o.natAbs % 60)

/-- Python `d.isoformat()`: microseconds are omitted when zero, the offset
is appended for aware values. -/
def DT.isoformat (dt : DT) : String :=
  let c := civilFromDays dt.day
  padZ 4 c.1.toNat ++ "-" ++ padZ 2 c.2.1 ++ "-" ++ padZ 2 c.2.2 ++ "T" ++
    padZ 2 dt.hour ++ ":" ++ padZ 2 dt.minute ++ ":" ++ padZ 2 dt.second ++
    (if dt.usec = 0 then "" else "." ++ padZ 6 dt.usec) ++ offString dt.tz

/-- Month name for `strftime("%B")`. -/
def monthName : Nat → String
  | 1 => "January"
  | 2 => "February"
  | 3 => "March"
  | 4 => "April"
  | 5 => "May"
  | 6 => "June"
  | 7 => "July"
  | 8 => "August"
  | 9 => "September"
  | 10 => "October"
  | 11 => "November"
  | 12 => "December"
  | _ => ""

/-- Python `d.strftime("%B %d, %Y at %I:%M %p")` (used only in the
reschedule success message). -/
def strftimeLong (d : DT) : String :=
  let c := civilFromDays d.day
  let h12 := if d.hour % 12 = 0 then 12 else d.hour % 12
  monthName c.2.1 ++ " " ++ padZ 2 c.2.2 ++ ", " ++ padZ 4 c.1.toNat ++ " at " ++
    padZ 2 h12 ++ ":" ++ padZ 2 d.minute ++ " " ++ (if d.hour < 12 then "AM" else "PM")

/-! ### azure_api.py — the Intent Extractor

`parse_azure_response` walks the decoded response: when a function-style
tool call with an `arguments` payload is present, the decoded arguments are
returned verbatim; otherwise the free-text content is wrapped as a
`message` Intent, with a fixed placeholder for empty text.  Its own
`try/except` catches only `json.JSONDecodeError`, `IndexError` and
`KeyError`; other exceptions escape to `call_azure_openai`, whose blanket
`except Exception` converts them to an `error` Intent. -/

def emptyPlaceholder : String := "Received an empty response from the assistant."

/-- The `{"action": "error", "content": "Response parsing error."}` value
returned by `parse_azure_response`'s own except-clause. -/
def parseErrIntent : Json :=
  Json.obj [("action", .str "error"), ("content", .str "Response parsing error.")]

/-- Which exceptions `parse_azure_response`'s `except (json.JSONDecodeError,
IndexError, KeyError)` clause catches. -/
def caughtInParse : PyExc → Bool
  | .jsonDecode => true
  | .indexErr => true
  | .keyErr => true
  | _ => false

/-- `response_data.get("choices", [{}])[0].get("message", {})`. -/
def getMessage (d : Json) : Except PyExc Json :=
  match pyGet d "choices" (Json.arr [Json.obj []]) with
  | .error e => .error e
  | .ok c =>
    match pyIndex0 c with
    | .error e => .error e
    | .ok c0 => pyGet c0 "message" (Json.obj [])

/-- The structured branch: evaluates `tool_calls and tool_calls[0]["type"]
== "function" and "arguments" in tool_calls[0]["function"]` (with Python's
short-circuiting) and, when true, decodes `tool_calls[0]["function"]
["arguments"]`, giving `some arguments`; `none` when the condition is
false. -/
def structCond (loads : String → Option Json) (tool_calls : Json) :
    Except PyExc (Option Json) :=
  if pyTruthy tool_calls then
    match pyIndex0 tool_calls with
    | .error e => .error e
    | .ok tc0 =>
      match pySubscrStr tc0 "type" with
      | .error e => .error e
      | .ok ty =>
        match ty with
        | .str "function" =>
          match pySubscrStr tc0 "function" with
          | .error e => .error e
          | .ok f =>
            match pyIn "arguments" f with
            | .error e => .error e
            | .ok false => .ok none
            | .ok true =>
              match pySubscrStr f "arguments" with
              | .error e => .error e
              | .ok argStr =>
                match pyLoads loads argStr with
                | .error e => .error e
                | .ok args => .ok (some args)
        | _ => .ok none
  else .ok none

/-- The body of `parse_azure_response` before its except-clause; `.error`
holds an exception the body raises. -/
def parseBody (loads : String → Option Json) (text : String) : Except PyExc Json :=
  match pyLoads loads (.str text) with
  | .error e => .error e
  | .ok response_data =>
    match getMessage response_data with
    | .error e => .error e
    | .ok msgNode =>
      match pyGet msgNode "tool_calls" (Json.arr []) with
      | .error e => .error e
      | .ok tool_calls =>
        match structCond loads tool_calls with
        | .error e => .error e
        | .ok (some args) => .ok args
        | .ok none =>
          match pyGet msgNode "content" (.str "") with
          | .error e => .error e
          | .ok content =>
            match pyStrip content with
            | .error e => .error e
            | .ok s =>
              .ok (Json.obj [("action", .str "message"),
                ("content", .str (if s = "" then emptyPlaceholder else s))])

/-- `parse_azure_response(response_text)`: the body with
`(json.JSONDecodeError, IndexError, KeyError)` downgraded to the parsing
`error` Intent; other exceptions propagate. -/
def parse_azure_response (loads : String → Option Json) (text : String) :
    Except PyExc Json :=
  match parseBody loads text with
  | .ok v => .ok v
  | .error e => if caughtInParse e then .ok parseErrIntent else .error e

/-- Outcome of the HTTP POST to the model endpoint, as seen by
`call_azure_openai`: a successful body, an `HTTPError` from
`raise_for_status`, or a `RequestException`. -/
inductive HttpOutcome where
  | ok (body : String)
  | httpError (msg : String)
  | requestError (msg : String)

/-- The response-handling part of `call_azure_openai`: parses a successful
body and converts every failure — transport errors and any exception
escaping `parse_azure_response` (caught by the blanket `except Exception`)
— into an `error` Intent, so it always returns a value. -/
def call_azure_openai (loads : String → Option Json) (resp : HttpOutcome) : Json :=
  match resp with
  | .httpError m => Json.obj [("action", .str "error"), ("content", .str m)]
  | .requestError m => Json.obj [("action", .str "error"), ("content", .str m)]
  | .ok body =>
    match parse_azure_response loads body with
    | .ok v => v
    | .error e => Json.obj [("action", .str "error"), ("content", .str (excStr e))]

/-- The decoded structured-arguments payload when `parse_azure_response`
takes the tool-call branch, `none` otherwise. -/
def structuredOut (loads : String → Option Json) (resp : HttpOutcome) : Option Json :=
  match resp with
  | .ok text =>
    match pyLoads loads (.str text) with
    | .error _ => none
    | .ok response_data =>
      match getMessage response_data with
      | .error _ => none
      | .ok msgNode =>
        match pyGet msgNode "tool_calls" (Json.arr []) with
        | .error _ => none
        | .ok tool_calls =>
          match structCond loads tool_calls with
          | .ok (some args) => some args
          | _ => none
  | _ => none

/-- The `action` field of an Intent-shaped value. -/
def actionOf (j : Json) : Option Json :=
  match j with
  | .obj kvs => jlookup kvs "action"
  | _ => none

/-- Whether a value has an `action` field drawn from the closed set of the
six action tags. -/
def hasValidAction (j : Json) : Bool :=
  match actionOf j with
  | some (.str a) =>
    a == "create" || a == "find" || a == "delete" || a == "reschedule" ||
      a == "message" || a == "error"
  | _ => false

/-! ### user_event_handler.py — dispatcher and handlers

Status messages (`st.info` / `st.warning` / `st.error` / `st.success` /
`st.write`) are collected in order; calendar-service calls are recorded as
a trace, with the service itself an oracle (`Service`) answering each call.
A handler's result also carries the exception escaping it, if any, which
`handle_calendar_action`'s `try/except` then reports. -/

/-- One status message emitted through streamlit. -/
inductive Msg where
  | info (s : String)
  | warning (s : String)
  | error (s : String)
  | success (s : String)
  | write (s : String)
deriving DecidableEq

/-- Keyword arguments of a `service.events().list(...)` call. -/
structure ListQuery where
  calendarId : String
  timeMin : Option Json
  timeMax : Option Json
  q : Option Json
  singleEvents : Bool
  orderBy : Option String
  maxResults : Option Nat

/-- One calendar-service call issued by a handler. -/
inductive CalCall where
  | list (q : ListQuery)
  | insert (calendarId : String) (body : Json)
  | update (calendarId : String) (eventId : Json) (body : Json)
  | del (calendarId : String) (eventId : Json)

/-- The external calendar service as an oracle: each operation either
returns a value or raises (`.error` carries the exception's text). -/
structure Service where
  listResult : ListQuery → Except String Json
  insertResult : Json → Except String Json
  updateResult : Json → Json → Except String Json
  deleteResult : Json → Except String Unit

/-- Result of running a handler: the calendar calls issued, the status
messages emitted, and the exception escaping the handler, if any. -/
structure HRes where
  calls : List CalCall
  msgs : List Msg
  exc : Option PyExc

/-- `handle_message(event_data)`. -/
def handle_message (event_data : Json) : HRes :=
  match pyGet event_data "content" (.str "") with
  | .error e => ⟨[], [], some e⟩
  | .ok c =>
    match pyStrip c with
    | .error e => ⟨[], [], some e⟩
    | .ok content =>
      if content ≠ "" then
        ⟨[], [.info ("**Assistant Response:** " ++ content)], none⟩
      else
        ⟨[], [.warning "Received an empty response. Please try again."], none⟩

/-- `handle_error(event_data)`. -/
def handle_error (event_data : Json) : HRes :=
  match pyGet event_data "content" (.str "An error occurred") with
  | .error e => ⟨[], [], some e⟩
  | .ok c => ⟨[], [.error (pyStr c)], none⟩

/-- The display loop of `find_events`: one `st.write` line per event; an
exception stops the loop and is reported by the surrounding `except`. -/
def findLines : List Json → List Msg × Option PyExc
  | [] => ([], none)
  | ev :: rest =>
    match (do
      let st ← pySubscrStr ev "start"
      let dflt ← pyGet st "date" Json.null
      let sv ← pyGet st "dateTime" dflt
      let sm ← pyGet ev "summary" (Json.str "No Title")
      pure (Msg.write ("📅 " ++ pyStr sm ++ ": " ++ pyStr sv)) :
        Except PyExc Msg) with
    | .error e => ([], some e)
    | .ok m =>
      let (ms, r) := findLines rest
      (m :: ms, r)

/-- `find_events(event_data, service, calendar_id)`.  The
`datetime.fromisoformat` conversions at the top are outside the `try`, so
their exceptions escape the handler. -/
def find_events (lo : Int) (svc : Service) (cid : String) (event_data : Json) : HRes :=
  match (do
    let st ← pyGet event_data "start_time" Json.null
    let et ← pyGet event_data "end_time" st
    pure (st, et) : Except PyExc (Json × Json)) with
  | .error e => ⟨[], [], some e⟩
  | .ok (start_time, end_time) =>
    if pyTruthy start_time = false then
      ⟨[], [.warning "Start time is required for finding events."], none⟩
    else
      match (do
        let sd ← pyFromIso start_time
        let ed ← pyFromIso end_time
        pure ((pyAstimezone lo 330 sd).isoformat, (pyAstimezone lo 330 ed).isoformat) :
          Except PyExc (String × String)) with
      | .error e => ⟨[], [], some e⟩
      | .ok (smin, smax) =>
        let q : ListQuery :=
          ⟨cid, some (.str smin), some (.str smax), none, true, some "startTime", none⟩
        match svc.listResult q with
        | .error m => ⟨[.list q], [.error ("Failed to fetch events: " ++ m)], none⟩
        | .ok resp =>
          match pyGet resp "items" (Json.arr []) with
          | .error e =>
            ⟨[.list q], [.error ("Failed to fetch events: " ++ excStr e)], none⟩
          | .ok items =>
            if pyTruthy items then
              match items with
              | .arr evs =>
                match findLines evs with
                | (lines, some e) =>
                  ⟨[.list q], (Msg.write "**Found Events:**" :: lines) ++
                    [.error ("Failed to fetch events: " ++ excStr e)], none⟩
                | (lines, none) =>
                  ⟨[.list q], Msg.write "**Found Events:**" :: lines, none⟩
              | _ =>
                ⟨[.list q], [.error ("Failed to fetch events: " ++ excStr .typeErr)], none⟩
            else ⟨[.list q], [.info "No events found."], none⟩

/-- `create_event(event_data, service, calendar_id)`.  The default-end
computation `datetime.fromisoformat(start_time_iso) + timedelta(hours=1)`
is outside the `try`, so its exceptions escape the handler. -/
def create_event (svc : Service) (cid : String) (event_data : Json) : HRes :=
  match (do
    let sv ← pyGet event_data "start_time" Json.null
    let sm ← pyGet event_data "summary" Json.null
    pure (sv, sm) : Except PyExc (Json × Json)) with
  | .error e => ⟨[], [], some e⟩
  | .ok (sv, sm) =>
    let missing :=
      (if pyTruthy sv then [] else ["start_time"]) ++
        (if pyTruthy sm then [] else ["summary"])
    if missing.isEmpty = false then
      ⟨[], [.warning ("Missing required fields: " ++ String.intercalate ", " missing)],
        none⟩
    else
      match (do
        let start_time_iso ← pySubscrStr event_data "start_time"
        let et ← pyGet event_data "end_time" Json.null
        let end_time_iso ←
          if pyTruthy et = false then do
            let dt ← pyFromIso start_time_iso
            pure (Json.str ((dt.addUsec usecPerHour).isoformat))
          else pure et
        let sumv ← pySubscrStr event_data "summary"
        let desc ← pyGet event_data "description" (.str "Created by AI Calendar Assistant")
        pure (start_time_iso, end_time_iso, sumv, desc) :
          Except PyExc (Json × Json × Json × Json)) with
      | .error e => ⟨[], [], some e⟩
      | .ok (start_time_iso, end_time_iso, sumv, desc) =>
        let body := Json.obj
          [("summary", sumv),
           ("start", Json.obj [("dateTime", start_time_iso),
             ("timeZone", Json.str "Asia/Kolkata")]),
           ("end", Json.obj [("dateTime", end_time_iso),
             ("timeZone", Json.str "Asia/Kolkata")]),
           ("description", desc)]
        match svc.insertResult body with
        | .error m => ⟨[.insert cid body], [.error ("Failed to create event: " ++ m)], none⟩
        | .ok _ =>
          ⟨[.insert cid body],
            [.success ("✅ Event '" ++ pyStr sumv ++ "' created successfully!")], none⟩

/-- The phrases whose presence in a lowercased summary triggers bulk
deletion. -/
def bulkKeywords : List String := ["all events", "all my events"]

/-- Lines 124–126 of the delete handler: a truthy title containing a bulk
phrase (case-insensitively) is replaced by the empty string. -/
def normalizeTitle (t : Json) : Except PyExc Json :=
  if pyTruthy t then
    match pyLower t with
    | .error e => .error e
    | .ok lw =>
      if bulkKeywords.any (fun k => match lw with
          | .str s => strIn k s
          | _ => false) then
        .ok (.str "")
      else .ok t
  else .ok t

/-- Lines 129–135 of the delete handler: no start time defaults the window
to the reference day 00:00:00–23:59:59.999999 (converted to IST from naive
local time); a start without an end gets `end = start + 1 day`. -/
def resolveDeleteWindow (lo : Int) (today : Int) (st et : Json) :
    Except PyExc (Json × Json) :=
  let p : Json × Json :=
    if pyTruthy st = false then
      (.str ((pyAstimezone lo 330 ⟨today, 0, 0, 0, 0, none⟩).isoformat),
       .str ((pyAstimezone lo 330 ⟨today, 23, 59, 59, 999999, none⟩).isoformat))
    else (st, et)
  if pyTruthy p.1 ∧ pyTruthy p.2 = false then
    match pyFromIso p.1 with
    | .error e => .error e
    | .ok dt =>
      .ok (p.1, .str ((pyAstimezone lo 330 (dt.addUsec usecPerDay)).isoformat))
  else .ok p

/-- The per-event deletion loop: deletes in list order, stopping at the
first failure (whose message is returned). -/
def deleteLoop (svc : Service) (cid : String) : List Json → List CalCall × Option String
  | [] => ([], none)
  | ev :: rest =>
    match pySubscrStr ev "id" with
    | .error e => ([], some (excStr e))
    | .ok idJ =>
      match svc.deleteResult idJ with
      | .error m => ([.del cid idJ], some m)
      | .ok _ =>
        let (cs, r) := deleteLoop svc cid rest
        (CalCall.del cid idJ :: cs, r)

/-- The `try` part of the delete handler: list the window (with the title
as `q` only when non-empty), then delete every match. -/
def deleteTryPart (svc : Service) (cid : String) (event_title st et : Json) : HRes :=
  let q : ListQuery :=
    ⟨cid, some st, some et,
     (if pyTruthy event_title then some event_title else none), true, none, none⟩
  match svc.listResult q with
  | .error m => ⟨[.list q], [.error ("Error while deleting events: " ++ m)], none⟩
  | .ok resp =>
    match pyGet resp "items" (Json.arr []) with
    | .error e => ⟨[.list q], [.error ("Error while deleting events: " ++ excStr e)], none⟩
    | .ok items =>
      if pyTruthy items then
        match items with
        | .arr evs =>
          match deleteLoop svc cid evs with
          | (cs, none) =>
            ⟨.list q :: cs,
              [.success ("✅ Deleted " ++ toString evs.length ++ " events successfully!")],
              none⟩
          | (cs, some m) =>
            ⟨.list q :: cs, [.error ("Error while deleting events: " ++ m)], none⟩
        | _ =>
          ⟨[.list q], [.error ("Error while deleting events: " ++ excStr .typeErr)], none⟩
      else ⟨[.list q], [.info "No matching events found for deletion."], none⟩

/-- `delete_event(event_data, service, calendar_id)`.  `today` is the
reference day `datetime.now(IST).date()` as a day number; `lo` the
process-local UTC offset used by `astimezone` on naive values.  The code
before the `try` (title normalization and window resolution) lets its
exceptions escape the handler. -/
def delete_event (lo : Int) (today : Int) (svc : Service) (cid : String)
    (event_data : Json) : HRes :=
  match (do
    let t0 ← pyGet event_data "summary" (.str "")
    let st0 ← pyGet event_data "start_time" Json.null
    let et0 ← pyGet event_data "end_time" Json.null
    let t ← normalizeTitle t0
    let w ← resolveDeleteWindow lo today st0 et0
    pure (t, w) : Except PyExc (Json × Json × Json)) with
  | .error e => ⟨[], [], some e⟩
  | .ok (t, st, et) => deleteTryPart svc cid t st et

/-- The matched-event branch of the reschedule handler (everything after
`events[0]` inside the `try`): `.error` carries the calls already issued
plus the caught exception's text. -/
def reschedMatched (svc : Service) (cid : String) (event_title new_start_time : Json)
    (items : Json) : Except (List CalCall × String) (List CalCall × List Msg) :=
  match pyIndex0 items with
  | .error e => .error ([], excStr e)
  | .ok ev =>
  match pySubscrStr ev "id" with
  | .error e => .error ([], excStr e)
  | .ok event_id =>
  match pySubscrStr ev "start" with
  | .error e => .error ([], excStr e)
  | .ok startObj =>
  match pySubscrStr startObj "dateTime" with
  | .error e => .error ([], excStr e)
  | .ok sdt =>
  match pyFromIso sdt with
  | .error e => .error ([], excStr e)
  | .ok orig_start =>
  match pySubscrStr ev "end" with
  | .error e => .error ([], excStr e)
  | .ok endObj =>
  match pySubscrStr endObj "dateTime" with
  | .error e => .error ([], excStr e)
  | .ok edt =>
  match pyFromIso edt with
  | .error e => .error ([], excStr e)
  | .ok orig_end =>
  match pySubDT orig_end orig_start with
  | .error e => .error ([], excStr e)
  | .ok orig_duration =>
  match pyFromIso new_start_time with
  | .error e => .error ([], excStr e)
  | .ok ns0 =>
    let p : DT × Json :=
      if ns0.hour = 0 ∧ ns0.minute = 0 then
        let c := (pyCombine ns0.day (DT.time orig_start)).replaceTz orig_start.tz
        (c, Json.str c.isoformat)
      else (ns0, new_start_time)
    let new_start := p.1
    let new_end := new_start.addUsec orig_duration
    let ev1 := jSet ev "start" (jSet startObj "dateTime" p.2)
    let ev2 := jSet ev1 "end" (jSet endObj "dateTime" (Json.str new_end.isoformat))
    match svc.updateResult event_id ev2 with
    | .error m => .error ([.update cid event_id ev2], m)
    | .ok _ =>
      .ok ([.update cid event_id ev2],
        [.success ("✅ Rescheduled event '" ++ pyStr event_title ++ "' to " ++
          strftimeLong new_start)])

/-- `reschedule_event(event_data, service, calendar_id)`. -/
def reschedule_event (svc : Service) (cid : String) (event_data : Json) : HRes :=
  match (do
    let t ← pyGet event_data "summary" Json.null
    let nst ← pyGet event_data "new_start_time" Json.null
    let net ← pyGet event_data "new_end_time" Json.null
    pure (t, nst, net) : Except PyExc (Json × Json × Json)) with
  | .error e => ⟨[], [], some e⟩
  | .ok (event_title, new_start_time, _new_end_time) =>
    if pyTruthy event_title = false then
      ⟨[], [.warning "Event title is required for rescheduling."], none⟩
    else
      let q : ListQuery := ⟨cid, none, none, some event_title, true, none, some 1⟩
      match svc.listResult q with
      | .error m =>
        ⟨[.list q], [.error ("Error while rescheduling event: " ++ m)], none⟩
      | .ok resp =>
        match pyGet resp "items" (Json.arr []) with
        | .error e =>
          ⟨[.list q], [.error ("Error while rescheduling event: " ++ excStr e)], none⟩
        | .ok items =>
          if pyTruthy items = false then
            ⟨[.list q],
              [.info ("No events found matching '" ++ pyStr event_title ++
                "' for rescheduling.")], none⟩
          else
            match reschedMatched svc cid event_title new_start_time items with
            | .ok (cs, ms) => ⟨.list q :: cs, ms, none⟩
            | .error (cs, m) =>
              ⟨.list q :: cs, [.error ("Error while rescheduling event: " ++ m)], none⟩

/-- `handle_calendar_action(params)`: validates the `action` key, requires
authentication (a service handle and a non-empty calendar id), dispatches
`params.get("event", {})` to the handler for `params["action"]`, and
converts any exception the handler raises into an `Error executing ...`
message. -/
def handle_calendar_action (lo : Int) (today : Int) (svc? : Option Service)
    (cid? : Option String) (params : Json) : HRes :=
  if pyTruthy params = false then
    ⟨[], [.warning "Invalid or missing action in the response."], none⟩
  else
    match pyIn "action" params with
    | .error e => ⟨[], [], some e⟩
    | .ok false => ⟨[], [.warning "Invalid or missing action in the response."], none⟩
    | .ok true =>
      match svc?, cid? with
      | some svc, some cid =>
        if cid.length = 0 then
          ⟨[], [.error "Not authenticated with Google. Please sign in first."], none⟩
        else
          match pySubscrStr params "action" with
          | .error e => ⟨[], [], some e⟩
          | .ok action =>
            match pyGet params "event" (Json.obj []) with
            | .error e => ⟨[], [], some e⟩
            | .ok event_data =>
              let r : HRes :=
                match action with
                | .str "message" => handle_message event_data
                | .str "error" => handle_error event_data
                | .str "find" => find_events lo svc cid event_data
                | .str "create" => create_event svc cid event_data
                | .str "delete" => delete_event lo today svc cid event_data
                | .str "reschedule" => reschedule_event svc cid event_data
                | a => ⟨[], [.warning ("Unsupported action: " ++ pyStr a)], none⟩
              match r.exc with
              | some e =>
                ⟨r.calls,
                  r.msgs ++ [.error ("Error executing " ++ pyStr action ++
                    " action: " ++ excStr e)], none⟩
              | none => r
      | _, _ => ⟨[], [.error "Not authenticated with Google. Please sign in first."], none⟩

/-- Two-level subscript `j[k1][k2]`, used to read fields of call bodies. -/
def jGet2 (j : Json) (k1 k2 : String) : Except PyExc Json :=
  match pySubscrStr j k1 with
  | .error e => .error e
  | .ok v => pySubscrStr v k2

/-- A stored calendar event with just an `id`. -/
def idOnlyEvent (i : String) : Json := Json.obj [("id", Json.str i)]

/-- A service listing three events `a`, `b`, `c` whose delete call fails on
`b`. -/
def c7svc : Service :=
  ⟨fun _ => .ok (Json.obj [("items",
      Json.arr [idOnlyEvent "a", idOnlyEvent "b", idOnlyEvent "c"])]),
   fun _ => .ok Json.null, fun _ _ => .ok Json.null,
   fun i => match i with
     | Json.str "b" => .error "boom"
     | _ => .ok ()⟩

/-- The stored event used by the reschedule fixtures: summary `Standup`,
2024-06-05 15:00–16:00 (+05:30). -/
def standupEvent : Json :=
  Json.obj [("id", Json.str "e1"), ("summary", Json.str "Standup"),
    ("start", Json.obj [("dateTime", Json.str "2024-06-05T15:00:00+05:30")]),
    ("end", Json.obj [("dateTime", Json.str "2024-06-05T16:00:00+05:30")])]

/-- A service whose title query finds exactly `standupEvent` and whose
update succeeds. -/
def standupSvc : Service :=
  ⟨fun _ => .ok (Json.obj [("items", Json.arr [standupEvent])]),
   fun _ => .ok Json.null, fun _ _ => .ok Json.null, fun _ => .ok ()⟩

/-- A reschedule Intent for `Standup` with the given `new_start_time`. -/
def reschedIntent (nst : Json) : Json :=
  Json.obj [("summary", Json.str "Standup"), ("new_start_time", nst)]

/-- Whether a summary string contains one of the bulk-deletion phrases,
case-insensitively. -/
def bulkHit (t : String) : Bool :=
  bulkKeywords.any (fun k => strIn k (lowerStr t))

/-- The normalized delete title filter: a truthy summary containing a bulk
phrase becomes the empty-string sentinel. -/
def normTitleStr (t : String) : String :=
  if t ≠ "" ∧ bulkHit t then "" else t

/-! ### Concrete fixtures used by witnesses and counterexamples -/

/-- A decoded model response whose single tool call's `arguments` string is
`argsKey`. -/
def toolCallResponse (argsKey : String) : Json :=
  Json.obj [("choices", Json.arr [Json.obj [("message", Json.obj [("tool_calls",
    Json.arr [Json.obj [("type", Json.str "function"),
      ("function", Json.obj [("arguments", Json.str argsKey)])]])])]])]

/-- A decoder for which the model returned a tool call whose arguments
decode to the empty object. -/
def c1loads : String → Option Json := fun s =>
  if s = "RESP" then some (toolCallResponse "ARGS")
  else if s = "ARGS" then some (Json.obj [])
  else none

/-- A decoder for which the model returned a tool call whose arguments are a
`message` Intent carrying its text inside `event.content`. -/
def c2loads : String → Option Json := fun s =>
  if s = "RESP" then some (toolCallResponse "ARGS")
  else if s = "ARGS" then some (Json.obj [("action", Json.str "message"),
    ("event", Json.obj [("content", Json.str "hi")])])
  else none

/-- A decoder for which the model returned no tool call and whitespace-only
free-text content. -/
def c10loads : String → Option Json := fun s =>
  if s = "RESP" then some (Json.obj [("choices", Json.arr [Json.obj [("message",
    Json.obj [("content", Json.str "   ")])]])])
  else none

/-- A calendar service whose list queries match nothing and whose mutations
succeed. -/
def stubSvc : Service :=
  ⟨fun _ => .ok (Json.obj [("items", Json.arr [])]),
   fun _ => .ok Json.null, fun _ _ => .ok Json.null, fun _ => .ok ()⟩

/-- The reschedule handler's resolved new start: the supplied start with
its time of day replaced by the original's (keeping the original's tzinfo)
when `hour == 0 and minute == 0`, the supplied start otherwise. -/
def resolvedNewStart (ns os : DT) : DT :=
  if ns.hour = 0 ∧ ns.minute = 0 then (pyCombine ns.day (DT.time os)).replaceTz os.tz
  else ns

/-! ### Arithmetic lemmas about the datetime model -/

theorem fromWall_recompose (day : Int) (h mi s us : Nat) (tz : Option Int)
    (hh : h < 24) (hm : mi < 60) (hs : s < 60) (hu : us < 1000000) :
    fromWallUsec (day * usecPerDay +
      (((h * 3600 + mi * 60 + s) * 1000000 + us : Nat) : Int)) tz
      = ⟨day, h, mi, s, us, tz⟩ := by
  have ht0 : (0:Int) ≤ (((h * 3600 + mi * 60 + s) * 1000000 + us : Nat) : Int) :=
    Int.natCast_nonneg _
  have htl : (((h * 3600 + mi * 60 + s) * 1000000 + us : Nat) : Int) < 86400000000 := by
    have : (h * 3600 + mi * 60 + s) * 1000000 + us < 86400000000 := by omega
    exact_mod_cast this
  unfold fromWallUsec usecPerDay
  have hdiv : (day * 86400000000 +
      (((h * 3600 + mi * 60 + s) * 1000000 + us : Nat) : Int)) / 86400000000 = day := by
    rw [Int.add_comm, Int.add_mul_ediv_right _ day (by norm_num : (86400000000:Int) ≠ 0),
      Int.ediv_eq_zero_of_lt ht0 htl, Int.zero_add]
  have hmod : (day * 86400000000 +
      (((h * 3600 + mi * 60 + s) * 1000000 + us : Nat) : Int)) % 86400000000
      = (((h * 3600 + mi * 60 + s) * 1000000 + us : Nat) : Int) := by
    rw [Int.add_comm, Int.add_mul_emod_self, Int.emod_eq_of_lt ht0 htl]
  rw [hdiv, hmod, Int.toNat_natCast]
  simp only [DT.mk.injEq]
  refine ⟨trivial, by omega, by omega, by omega, by omega, trivial⟩

theorem wallUsec_fromWallUsec (u : Int) (tz : Option Int) :
    (fromWallUsec u tz).wallUsec = u := by
  have h0 : 0 ≤ u % 86400000000 := Int.emod_nonneg u (by norm_num)
  have h1 : u % 86400000000 < 86400000000 := Int.emod_lt_of_pos u (by norm_num)
  unfold fromWallUsec DT.wallUsec DT.timeUsec usecPerDay
  dsimp only
  have ht : (((u % 86400000000).toNat / 3600000000 * 3600 +
      ((u % 86400000000).toNat / 60000000) % 60 * 60 +
      ((u % 86400000000).toNat / 1000000) % 60) * 1000000 +
      (u % 86400000000).toNat % 1000000) = (u % 86400000000).toNat := by omega
  rw [ht, Int.toNat_of_nonneg h0]
  have hde := Int.ediv_add_emod u 86400000000
  omega

theorem valid_fromWallUsec (u : Int) (tz : Option Int) : (fromWallUsec u tz).Valid := by
  have h0 : 0 ≤ u % 86400000000 := Int.emod_nonneg u (by norm_num)
  have h1 : u % 86400000000 < 86400000000 := Int.emod_lt_of_pos u (by norm_num)
  unfold fromWallUsec usecPerDay DT.Valid
  dsimp only
  refine ⟨by omega, by omega, by omega, by omega⟩

theorem addUsec_wall (d : DT) (t : Int) : (d.addUsec t).wallUsec = d.wallUsec + t :=
  wallUsec_fromWallUsec _ _

theorem addUsec_tz (d : DT) (t : Int) : (d.addUsec t).tz = d.tz := rfl

/-- Adding one day to an in-range datetime moves to the next civil day at
the same time of day. -/
theorem addUsec_day (d : DT) (hv : d.Valid) :
    d.addUsec usecPerDay = ⟨d.day + 1, d.hour, d.minute, d.second, d.usec, d.tz⟩ := by
  obtain ⟨h1, h2, h3, h4⟩ := hv
  unfold DT.addUsec DT.wallUsec DT.timeUsec
  have he : d.day * usecPerDay +
      (((d.hour * 3600 + d.minute * 60 + d.second) * 1000000 + d.usec : Nat) : Int) +
      usecPerDay = (d.day + 1) * usecPerDay +
      (((d.hour * 3600 + d.minute * 60 + d.second) * 1000000 + d.usec : Nat) : Int) := by
    ring
  rw [he]
  exact fromWall_recompose _ _ _ _ _ _ h1 h2 h3 h4

/-- `astimezone` to UTC+05:30 is the identity on the wall clock when the
value's effective offset is already +05:30 (an aware +05:30 value, or a
naive one read in a +05:30 process-local timezone). -/
theorem astimezone_id (lo : Int) (d : DT) (hv : d.Valid) (hoff : d.tz.getD lo = 330) :
    pyAstimezone lo 330 d = ⟨d.day, d.hour, d.minute, d.second, d.usec, some 330⟩ := by
  obtain ⟨h1, h2, h3, h4⟩ := hv
  unfold pyAstimezone DT.absUsec
  rw [hoff]
  have he : d.wallUsec - 330 * 60000000 + 330 * 60000000 = d.wallUsec := by ring
  rw [he]
  unfold DT.wallUsec DT.timeUsec
  exact fromWall_recompose _ _ _ _ _ _ h1 h2 h3 h4

/-! ### Bridging lemmas about strings, truthiness and the delete helpers -/

theorem str_length_zero_iff (s : String) : s.length = 0 ↔ s = "" := by
  constructor
  · intro h
    obtain ⟨data⟩ := s
    cases data with
    | nil => rfl
    | cons c t => simp [String.length] at h
  · intro h
    subst h
    rfl

theorem pyTruthy_str_iff (s : String) : pyTruthy (.str s) = true ↔ s ≠ "" := by
  unfold pyTruthy
  rw [bne_iff_ne]
  exact not_congr (str_length_zero_iff s)

theorem isoformat_ne_empty (d : DT) : DT.isoformat d ≠ "" := by
  intro h
  have hl := congrArg String.length h
  unfold DT.isoformat at hl
  simp only [String.length_append] at hl
  have hT : ("T" : String).length = 1 := rfl
  have hE : ("" : String).length = 0 := rfl
  omega

theorem pyTruthy_iso (d : DT) : pyTruthy (.str (DT.isoformat d)) = true :=
  (pyTruthy_str_iff _).mpr (isoformat_ne_empty d)

theorem valid_mk (day : Int) (h mi s us : Nat) (tz : Option Int)
    (hh : h < 24) (hm : mi < 60) (hs : s < 60) (hu : us < 1000000) :
    DT.Valid ⟨day, h, mi, s, us, tz⟩ := ⟨hh, hm, hs, hu⟩

theorem normalizeTitle_str (t : String) :
    normalizeTitle (.str t) = .ok (.str (normTitleStr t)) := by
  unfold normalizeTitle normTitleStr bulkHit pyLower
  by_cases h : t = ""
  · subst h
    simp [pyTruthy]
  · rw [if_pos ((pyTruthy_str_iff t).mpr h)]
    dsimp only
    by_cases hb : (bulkKeywords.any (fun k => strIn k (lowerStr t))) = true
    · rw [if_pos hb, if_pos (And.intro h hb)]
    · rw [if_neg hb, if_neg (by intro hc; exact hb hc.2)]

theorem bulkHit_normTitle (t : String) (h : bulkHit t = true) : normTitleStr t = "" := by
  unfold normTitleStr
  by_cases he : t = ""
  · rw [if_neg (by intro hc; exact hc.1 he)]
    exact he
  · rw [if_pos (And.intro he h)]

/-- With no (truthy) start time, the delete window is the reference day from
midnight to `23:59:59.999999`, both rendered with the +05:30 offset, when
the process-local offset is +05:30. -/
theorem resolveDeleteWindow_default (today : Int) (st0 et0 : Json)
    (hstf : pyTruthy st0 = false) :
    resolveDeleteWindow 330 today st0 et0 =
      .ok (.str (DT.isoformat ⟨today, 0, 0, 0, 0, some 330⟩),
           .str (DT.isoformat ⟨today, 23, 59, 59, 999999, some 330⟩)) := by
  unfold resolveDeleteWindow
  dsimp only
  rw [if_pos hstf]
  rw [astimezone_id 330 ⟨today, 0, 0, 0, 0, none⟩
    (valid_mk today 0 0 0 0 none (by norm_num) (by norm_num) (by norm_num) (by norm_num))
    rfl]
  rw [astimezone_id 330 ⟨today, 23, 59, 59, 999999, none⟩
    (valid_mk today 23 59 59 999999 none (by norm_num) (by norm_num) (by norm_num)
      (by norm_num)) rfl]
  dsimp only
  rw [if_neg]
  intro hc
  have h2 := hc.2
  rw [pyTruthy_iso] at h2
  exact Bool.noConfusion h2

/-- With a truthy start and no end, the delete window keeps the supplied
start and sets `end = start + 1 day` (converted with `astimezone(IST)`). -/
theorem resolveDeleteWindow_plus_day (today : Int) (s : String) (et0 : Json) (dt : DT)
    (hst : pyTruthy (.str s) = true) (hp : parseIso s = some dt)
    (hetf : pyTruthy et0 = false) :
    resolveDeleteWindow 330 today (.str s) et0 =
      .ok (.str s, .str ((pyAstimezone 330 330 (dt.addUsec usecPerDay)).isoformat)) := by
  unfold resolveDeleteWindow
  dsimp only
  rw [if_neg (show ¬(pyTruthy (Json.str s) = false) by rw [hst]; simp)]
  rw [if_pos (show pyTruthy (Json.str s) = true ∧ pyTruthy et0 = false from ⟨hst, hetf⟩)]
  unfold pyFromIso
  dsimp only
  rw [hp]

/-! ### Lemmas about the extractor -/

/-- When the body of `parse_azure_response` raises, `call_azure_openai`
returns an `error` Intent (either the parser's own, or the blanket
handler's). -/
theorem parse_err_result (loads : String → Option Json) (text : String) (e : PyExc)
    (hb : parseBody loads text = .error e) :
    ∃ c, call_azure_openai loads (.ok text) =
      Json.obj [("action", .str "error"), ("content", .str c)] := by
  unfold call_azure_openai parse_azure_response
  dsimp only
  rw [hb]
  dsimp only
  cases hc : caughtInParse e
  · exact ⟨excStr e, rfl⟩
  · exact ⟨"Response parsing error.", rfl⟩

/-- When the body of `parse_azure_response` returns, `call_azure_openai`
passes its value through. -/
theorem parse_ok_result (loads : String → Option Json) (text : String) (v : Json)
    (hb : parseBody loads text = .ok v) :
    call_azure_openai loads (.ok text) = v := by
  unfold call_azure_openai parse_azure_response
  dsimp only
  rw [hb]

/-- When the structured tool-call branch is not taken, the body either
raises or returns a `message` Intent built from the free-text content. -/
theorem parseBody_cases (loads : String → Option Json) (text : String)
    (h : structuredOut loads (.ok text) = none) :
    (∃ e, parseBody loads text = .error e) ∨
    (∃ c, parseBody loads text =
      .ok (Json.obj [("action", .str "message"), ("content", .str c)])) := by
  unfold parseBody
  unfold structuredOut at h
  dsimp only at h
  cases h1 : pyLoads loads (Json.str text) with
  | error e => exact Or.inl ⟨e, rfl⟩
  | ok rd =>
    rw [h1] at h
    dsimp only at h
    try dsimp only
    cases h2 : getMessage rd with
    | error e => exact Or.inl ⟨e, rfl⟩
    | ok mn =>
      rw [h2] at h
      dsimp only at h
      try dsimp only
      cases h3 : pyGet mn "tool_calls" (Json.arr []) with
      | error e => exact Or.inl ⟨e, rfl⟩
      | ok tc =>
        rw [h3] at h
        dsimp only at h
        try dsimp only
        cases h4 : structCond loads tc with
        | error e => exact Or.inl ⟨e, rfl⟩
        | ok o =>
          rw [h4] at h
          try dsimp only at h
          cases o with
          | some a => exact absurd h (by simp)
          | none =>
            try dsimp only
            cases h5 : pyGet mn "content" (Json.str "") with
            | error e => exact Or.inl ⟨e, rfl⟩
            | ok content =>
              try dsimp only
              cases h6 : pyStrip content with
              | error e => exact Or.inl ⟨e, rfl⟩
              | ok s => exact Or.inr ⟨(if s = "" then emptyPlaceholder else s), rfl⟩

/-- When the structured branch is not taken, the extractor's output is a
top-level `message` or `error` Intent with its text in `content`. -/
theorem call_nonstructured_shape (loads : String → Option Json) (resp : HttpOutcome)
    (h : structuredOut loads resp = none) :
    (∃ c, call_azure_openai loads resp =
      Json.obj [("action", .str "message"), ("content", .str c)]) ∨
    (∃ c, call_azure_openai loads resp =
      Json.obj [("action", .str "error"), ("content", .str c)]) := by
  cases resp with
  | httpError m => exact Or.inr ⟨m, rfl⟩
  | requestError m => exact Or.inr ⟨m, rfl⟩
  | ok text =>
    rcases parseBody_cases loads text h with ⟨e, he⟩ | ⟨c, hc⟩
    · exact Or.inr (parse_err_result loads text e he)
    · exact Or.inl ⟨c, parse_ok_result loads text _ hc⟩

/-- When the structured branch is taken, the extractor returns the decoded
arguments verbatim. -/
theorem call_structured (loads : String → Option Json) (resp : HttpOutcome) (a : Json)
    (h : structuredOut loads resp = some a) :
    call_azure_openai loads resp = a := by
  cases resp with
  | httpError m => exact absurd h (by simp [structuredOut])
  | requestError m => exact absurd h (by simp [structuredOut])
  | ok text =>
    refine parse_ok_result loads text a ?_
    unfold parseBody
    unfold structuredOut at h
    dsimp only at h
    cases h1 : pyLoads loads (Json.str text) with
    | error e =>
      rw [h1] at h
      dsimp only at h
      exact absurd h (by simp)
    | ok rd =>
      rw [h1] at h
      dsimp only at h
      try dsimp only
      cases h2 : getMessage rd with
      | error e =>
        rw [h2] at h
        dsimp only at h
        exact absurd h (by simp)
      | ok mn =>
        rw [h2] at h
        dsimp only at h
        try dsimp only
        cases h3 : pyGet mn "tool_calls" (Json.arr []) with
        | error e =>
          rw [h3] at h
          dsimp only at h
          exact absurd h (by simp)
        | ok tc =>
          rw [h3] at h
          dsimp only at h
          try dsimp only
          cases h4 : structCond loads tc with
          | error e =>
            rw [h4] at h
            dsimp only at h
            exact absurd h (by simp)
          | ok o =>
            rw [h4] at h
            try dsimp only at h
            cases o with
            | none => exact absurd h (by simp)
            | some args =>
              try dsimp only at h
              try dsimp only
              rw [Option.some_inj.mp h]

/-! ### Dispatch of extractor-shaped message and error Intents -/

/-- Dispatching a top-level `message` Intent with no `event` key: the
handler sees the empty event record and warns about an empty response,
whatever `content` holds. -/
theorem dispatch_noevent_message (lo today : Int) (svc : Service) (cid : String)
    (hcid : cid ≠ "") (c : String) :
    handle_calendar_action lo today (some svc) (some cid)
      (Json.obj [("action", .str "message"), ("content", .str c)]) =
      ⟨[], [.warning "Received an empty response. Please try again."], none⟩ := by
  have h0 : handle_calendar_action lo today (some svc) (some cid)
      (Json.obj [("action", .str "message"), ("content", .str c)]) =
      (if cid.length = 0 then
        ⟨[], [.error "Not authenticated with Google. Please sign in first."], none⟩
       else ⟨[], [.warning "Received an empty response. Please try again."], none⟩) := rfl
  rw [h0, if_neg (fun hz => hcid ((str_length_zero_iff cid).mp hz))]

/-- Dispatching a top-level `error` Intent with no `event` key: the handler
sees the empty event record and shows the generic error text, whatever
`content` holds. -/
theorem dispatch_noevent_error (lo today : Int) (svc : Service) (cid : String)
    (hcid : cid ≠ "") (c : String) :
    handle_calendar_action lo today (some svc) (some cid)
      (Json.obj [("action", .str "error"), ("content", .str c)]) =
      ⟨[], [.error "An error occurred"], none⟩ := by
  have h0 : handle_calendar_action lo today (some svc) (some cid)
      (Json.obj [("action", .str "error"), ("content", .str c)]) =
      (if cid.length = 0 then
        ⟨[], [.error "Not authenticated with Google. Please sign in first."], none⟩
       else ⟨[], [.error "An error occurred"], none⟩) := rfl
  rw [h0, if_neg (fun hz => hcid ((str_length_zero_iff cid).mp hz))]

/-- Running `delete_event`'s pre-`try` code under the given field and
window hypotheses reduces the handler to its `try` part. -/
theorem delete_event_run (lo today : Int) (svc : Service) (cid : String)
    (ed t0 st0 et0 tn smin smax : Json)
    (hsum : pyGet ed "summary" (.str "") = .ok t0)
    (hst : pyGet ed "start_time" Json.null = .ok st0)
    (het : pyGet ed "end_time" Json.null = .ok et0)
    (hnt : normalizeTitle t0 = .ok tn)
    (hw : resolveDeleteWindow lo today st0 et0 = .ok (smin, smax)) :
    delete_event lo today svc cid ed = deleteTryPart svc cid tn smin smax := by
  unfold delete_event
  simp only [bind, Except.bind, pure, Except.pure, hsum, hst, het, hnt, hw]

/-- The deletion loop deletes the successful prefix in order, issues the
failing call, and stops: no event after the failing one is touched. -/
theorem deleteLoop_fail (svc : Service) (cid : String) (pre : List (Json × Json))
    (evBad idBad : Json) (post : List Json) (m : String)
    (hids : ∀ p ∈ pre, pySubscrStr p.1 "id" = .ok p.2)
    (hok : ∀ p ∈ pre, svc.deleteResult p.2 = .ok ())
    (hb1 : pySubscrStr evBad "id" = .ok idBad)
    (hb2 : svc.deleteResult idBad = .error m) :
    deleteLoop svc cid (pre.map Prod.fst ++ evBad :: post) =
      (pre.map (fun p => CalCall.del cid p.2) ++ [CalCall.del cid idBad], some m) := by
  induction pre with
  | nil =>
    simp only [List.map_nil, List.nil_append]
    unfold deleteLoop
    rw [hb1]
    dsimp only
    rw [hb2]
  | cons p rest ih =>
    simp only [List.map_cons, List.cons_append]
    unfold deleteLoop
    rw [hids p (List.mem_cons_self _ _)]
    dsimp only
    rw [hok p (List.mem_cons_self _ _)]
    dsimp only
    rw [ih (fun x hx => hids x (List.mem_cons_of_mem _ hx))
      (fun x hx => hok x (List.mem_cons_of_mem _ hx))]

theorem jlookup_setAssoc_self (kvs : List (String × Json)) (k : String) (v : Json) :
    jlookup (setAssoc kvs k v) k = some v := by
  induction kvs with
  | nil => simp [setAssoc, jlookup]
  | cons p t ih =>
    by_cases hk : p.1 = k
    · simp [setAssoc, jlookup, hk]
    · simp [setAssoc, jlookup, hk, ih]

theorem jlookup_setAssoc_other (kvs : List (String × Json)) (k k' : String) (v : Json)
    (h : k' ≠ k) : jlookup (setAssoc kvs k' v) k = jlookup kvs k := by
  induction kvs with
  | nil => simp [setAssoc, jlookup, h]
  | cons p t ih =>
    by_cases hk : p.1 = k'
    · simp [setAssoc, jlookup, hk, h]
    · by_cases hp : p.1 = k
      · have hkk : ¬(k = k') := fun hc => hk (hp.trans hc)
        simp [setAssoc, jlookup, hk, hp, hkk]
      · simp [setAssoc, jlookup, hk, hp, ih]

/-- Inversion for a successful string subscript. -/
theorem pySubscrStr_ok (v : Json) (k : String) (r : Json)
    (h : pySubscrStr v k = .ok r) : ∃ kvs, v = .obj kvs ∧ jlookup kvs k = some r := by
  cases v with
  | obj kvs =>
    refine ⟨kvs, rfl, ?_⟩
    unfold pySubscrStr at h
    dsimp only at h
    cases hl : jlookup kvs k with
    | some x =>
      rw [hl] at h
      dsimp only at h
      cases h
      rfl
    | none =>
      rw [hl] at h
      dsimp only at h
      cases h
  | null => cases h
  | bool b => cases h
  | num n => cases h
  | str s => cases h
  | arr xs => cases h

/-- A truthy value fetched by `.get(k)` (default `None`) is also reachable by
`v[k]`. -/
theorem pyGet_truthy_subscr (v : Json) (k : String) (r : Json)
    (h : pyGet v k Json.null = .ok r) (ht : pyTruthy r = true) :
    pySubscrStr v k = .ok r := by
  cases v with
  | obj kvs =>
    unfold pyGet at h
    try dsimp only at h
    unfold pySubscrStr
    try dsimp only
    cases hl : jlookup kvs k with
    | some x =>
      rw [hl] at h
      try dsimp only at h
      cases h
      rfl
    | none =>
      rw [hl] at h
      try dsimp only at h
      cases h
      cases ht
  | null => cases h
  | bool b => cases h
  | num n => cases h
  | str s => cases h
  | arr xs => cases h

/-- Every branch of the delete handler's `try` part issues the list query
first. -/
theorem deleteTryPart_calls (svc : Service) (cid : String) (t st et : Json) :
    ∃ rest, (deleteTryPart svc cid t st et).calls =
      CalCall.list ⟨cid, some st, some et,
        (if pyTruthy t then some t else none), true, none, none⟩ :: rest := by
  unfold deleteTryPart
  dsimp only
  split
  · exact ⟨_, rfl⟩
  · split
    · exact ⟨_, rfl⟩
    · split
      · split
        · split
          · exact ⟨_, rfl⟩
          · exact ⟨_, rfl⟩
        · exact ⟨_, rfl⟩
      · exact ⟨_, rfl⟩

/-! ### The claims -/

/-- C1 (amended): `call_azure_openai` always returns an Intent-shaped value
without raising — every transport failure and every exception escaping
`parse_azure_response` is converted to an `error` Intent.  When the model
response carries no decodable structured function payload, the returned
record's `action` field is `message` or `error` (hence inside the closed
set); but when a structured payload is present, its decoded arguments
object is returned verbatim, with no validation that an `action` field is
present or valid. -/
theorem C1_extraction_no_throw_closed_action (loads : String → Option Json)
    (resp : HttpOutcome) :
    (∀ a, structuredOut loads resp = some a → call_azure_openai loads resp = a) ∧
    (structuredOut loads resp = none →
      actionOf (call_azure_openai loads resp) = some (.str "message") ∨
      actionOf (call_azure_openai loads resp) = some (.str "error")) := by
  constructor
  · exact fun a ha => call_structured loads resp a ha
  · intro h
    rcases call_nonstructured_shape loads resp h with ⟨c, hc⟩ | ⟨c, hc⟩
    · left
      rw [hc]
      rfl
    · right
      rw [hc]
      rfl

/-- C1 counterexample: a well-formed model response whose tool-call
arguments decode to the empty object is returned as-is, with no `action`
field at all — refuting the claim that the returned value always carries an
`action` drawn from the closed set. -/
theorem C1_counterexample :
    call_azure_openai c1loads (HttpOutcome.ok "RESP") = Json.obj [] ∧
    hasValidAction (Json.obj []) = false := ⟨rfl, rfl⟩

/-- C1 witness: on a response with no structured payload the extractor's
output carries a `message` or `error` action. -/
theorem C1_witness :
    actionOf (call_azure_openai c10loads (HttpOutcome.ok "RESP")) =
      some (.str "message") ∨
    actionOf (call_azure_openai c10loads (HttpOutcome.ok "RESP")) =
      some (.str "error") :=
  (C1_extraction_no_throw_closed_action c10loads (HttpOutcome.ok "RESP")).2 rfl

/-- C2 (amended): the dispatcher hands only the nested `event` sub-record
(defaulting to the empty record) to the display handlers, never the
top-level `content` field; consequently every message/error Intent produced
by the extractor's fallback and error paths — i.e. not passed through from a
structured tool-call payload — is displayed as the fixed
"Received an empty response" warning resp. the generic "An error occurred"
text, regardless of the Intent's actual content.  (A structured payload can
itself carry `action: message` with an `event.content`, which is displayed,
so the restriction to the fallback/error paths is necessary.) -/
theorem C2_display_ignores_content (loads : String → Option Json)
    (resp : HttpOutcome) (lo today : Int) (svc : Service) (cid : String)
    (hcid : cid ≠ "") (h : structuredOut loads resp = none) :
    (actionOf (call_azure_openai loads resp) = some (.str "message") →
      handle_calendar_action lo today (some svc) (some cid)
        (call_azure_openai loads resp) =
        ⟨[], [.warning "Received an empty response. Please try again."], none⟩) ∧
    (actionOf (call_azure_openai loads resp) = some (.str "error") →
      handle_calendar_action lo today (some svc) (some cid)
        (call_azure_openai loads resp) =
        ⟨[], [.error "An error occurred"], none⟩) := by
  rcases call_nonstructured_shape loads resp h with ⟨c, hc⟩ | ⟨c, hc⟩
  · constructor
    · intro _
      rw [hc]
      exact dispatch_noevent_message lo today svc cid hcid c
    · intro ha
      rw [hc] at ha
      have hm : actionOf (Json.obj [("action", .str "message"),
        ("content", .str c)]) = some (.str "message") := rfl
      rw [hm] at ha
      simp at ha
  · constructor
    · intro ha
      rw [hc] at ha
      have hm : actionOf (Json.obj [("action", .str "error"),
        ("content", .str c)]) = some (.str "error") := rfl
      rw [hm] at ha
      simp at ha
    · intro _
      rw [hc]
      exact dispatch_noevent_error lo today svc cid hcid c

/-- C2 counterexample: an extractor-produced `message` Intent coming from a
structured tool-call payload with an `event.content` is displayed as an
info message with its text, not as the empty-response warning. -/
theorem C2_counterexample :
    handle_calendar_action 330 0 (some stubSvc) (some "cal")
      (call_azure_openai c2loads (HttpOutcome.ok "RESP")) =
      ⟨[], [.info "**Assistant Response:** hi"], none⟩ ∧
    Msg.info "**Assistant Response:** hi" ≠
      Msg.warning "Received an empty response. Please try again." :=
  ⟨rfl, by decide⟩

/-- C2 witness: a transport-level parse failure yields an `error` Intent
which the dispatcher displays as the generic error text. -/
theorem C2_witness :
    handle_calendar_action 330 0 (some stubSvc) (some "cal")
      (call_azure_openai (fun _ => none) (HttpOutcome.ok "junk")) =
      ⟨[], [.error "An error occurred"], none⟩ :=
  (C2_display_ignores_content (fun _ => none) (HttpOutcome.ok "junk") 330 0
    stubSvc "cal" (by decide) rfl).2 rfl

/-- C10: when the model response carries no structured function payload and
its free-text content is a string that strips to empty, the extractor
returns a `message` Intent whose `content` is the fixed non-empty
placeholder, never the empty string. -/
theorem C10_empty_fallback (loads : String → Option Json) (text : String)
    (d mnode tc content : Json)
    (hload : pyLoads loads (.str text) = .ok d)
    (hmsg : getMessage d = .ok mnode)
    (htc : pyGet mnode "tool_calls" (Json.arr []) = .ok tc)
    (hsc : structCond loads tc = .ok none)
    (hcontent : pyGet mnode "content" (.str "") = .ok content)
    (hstrip : pyStrip content = .ok "") :
    call_azure_openai loads (.ok text) =
      Json.obj [("action", .str "message"), ("content", .str emptyPlaceholder)] ∧
    emptyPlaceholder ≠ "" := by
  constructor
  · apply parse_ok_result
    unfold parseBody
    rw [hload]
    dsimp only
    rw [hmsg]
    dsimp only
    rw [htc]
    dsimp only
    rw [hsc]
    dsimp only
    rw [hcontent]
    dsimp only
    rw [hstrip]
    rfl
  · decide

/-- C10 witness: whitespace-only model content produces the placeholder. -/
theorem C10_witness :
    call_azure_openai c10loads (HttpOutcome.ok "RESP") =
      Json.obj [("action", .str "message"), ("content", .str emptyPlaceholder)] ∧
    emptyPlaceholder ≠ "" :=
  C10_empty_fallback c10loads "RESP"
    (Json.obj [("choices", Json.arr [Json.obj [("message",
      Json.obj [("content", Json.str "   ")])]])])
    (Json.obj [("content", Json.str "   ")])
    (Json.arr []) (Json.str "   ")
    rfl rfl rfl rfl rfl rfl

/-- C4 (amended): for every delete Intent with no (truthy) `start_time`,
run with the process-local timezone at +05:30, the list query's window runs
from the reference day at 00:00:00 to the same day at 23:59:59.999999
(`datetime.max.time()` carries 999999 microseconds), and both resolved
endpoints carry the +05:30 offset explicitly. -/
theorem C4_delete_default_window (today : Int) (svc : Service) (cid : String)
    (ed t0 tn st0 et0 : Json)
    (hsum : pyGet ed "summary" (.str "") = .ok t0)
    (hst : pyGet ed "start_time" Json.null = .ok st0)
    (het : pyGet ed "end_time" Json.null = .ok et0)
    (hnt : normalizeTitle t0 = .ok tn)
    (hstf : pyTruthy st0 = false) :
    ∃ q rest, (delete_event 330 today svc cid ed).calls = CalCall.list q :: rest ∧
      q.timeMin = some (.str (DT.isoformat ⟨today, 0, 0, 0, 0, some 330⟩)) ∧
      q.timeMax = some (.str (DT.isoformat ⟨today, 23, 59, 59, 999999, some 330⟩)) := by
  rw [delete_event_run 330 today svc cid ed t0 st0 et0 tn _ _ hsum hst het hnt
    (resolveDeleteWindow_default today st0 et0 hstf)]
  obtain ⟨rest, hr⟩ := deleteTryPart_calls svc cid tn
    (.str (DT.isoformat ⟨today, 0, 0, 0, 0, some 330⟩))
    (.str (DT.isoformat ⟨today, 23, 59, 59, 999999, some 330⟩))
  exact ⟨_, rest, hr, rfl, rfl⟩

/-- C4 counterexample: on reference day 2024-06-10 the resolved upper bound
is `2024-06-10T23:59:59.999999+05:30`, not the claimed
`2024-06-10T23:59:59+05:30`. -/
theorem C4_counterexample :
    (delete_event 330 19884 stubSvc "cal" (Json.obj [])).calls =
      [CalCall.list ⟨"cal", some (.str "2024-06-10T00:00:00+05:30"),
        some (.str "2024-06-10T23:59:59.999999+05:30"), none, true, none, none⟩] ∧
    ("2024-06-10T23:59:59.999999+05:30" : String) ≠ "2024-06-10T23:59:59+05:30" :=
  ⟨rfl, by decide⟩

/-- C4 witness: the window endpoints on reference day 2024-06-10 (day
number 19884) render to midnight and 23:59:59.999999 with offset +05:30. -/
theorem C4_witness :
    (∃ q rest, (delete_event 330 19884 stubSvc "cal" (Json.obj [])).calls =
        CalCall.list q :: rest ∧
      q.timeMin = some (.str (DT.isoformat ⟨19884, 0, 0, 0, 0, some 330⟩)) ∧
      q.timeMax = some (.str (DT.isoformat ⟨19884, 23, 59, 59, 999999, some 330⟩))) ∧
    DT.isoformat ⟨19884, 0, 0, 0, 0, some 330⟩ = "2024-06-10T00:00:00+05:30" ∧
    DT.isoformat ⟨19884, 23, 59, 59, 999999, some 330⟩ =
      "2024-06-10T23:59:59.999999+05:30" :=
  ⟨C4_delete_default_window 19884 stubSvc "cal" (Json.obj []) (.str "")
    (.str "") Json.null Json.null rfl rfl rfl rfl rfl, rfl, rfl⟩

/-- C5: a delete summary containing "all events" or "all my events"
(case-insensitively) normalizes the title filter to the empty string; and
the list query carries a `q` argument exactly when the normalized title is
non-empty, with the normalized title as its value. -/
theorem C5_bulk_sentinel (today : Int) (svc : Service) (cid : String)
    (ed st0 et0 smin smax : Json) (t : String)
    (hsum : pyGet ed "summary" (.str "") = .ok (.str t))
    (hst : pyGet ed "start_time" Json.null = .ok st0)
    (het : pyGet ed "end_time" Json.null = .ok et0)
    (hw : resolveDeleteWindow 330 today st0 et0 = .ok (smin, smax)) :
    (∃ rest, (delete_event 330 today svc cid ed).calls =
      CalCall.list ⟨cid, some smin, some smax,
        (if normTitleStr t = "" then none else some (.str (normTitleStr t))),
        true, none, none⟩ :: rest) ∧
    (bulkHit t = true → normTitleStr t = "") := by
  constructor
  · rw [delete_event_run 330 today svc cid ed (.str t) st0 et0
      (.str (normTitleStr t)) smin smax hsum hst het (normalizeTitle_str t) hw]
    obtain ⟨rest, hr⟩ := deleteTryPart_calls svc cid (.str (normTitleStr t)) smin smax
    refine ⟨rest, ?_⟩
    rw [hr]
    have hq : (if pyTruthy (Json.str (normTitleStr t)) = true
        then some (Json.str (normTitleStr t)) else none) =
        (if normTitleStr t = "" then none
         else some (Json.str (normTitleStr t))) := by
      by_cases hz : normTitleStr t = ""
      · rw [if_pos hz, if_neg (show ¬(pyTruthy (Json.str (normTitleStr t)) = true) by
          rw [hz]; simp [pyTruthy])]
      · rw [if_pos ((pyTruthy_str_iff _).mpr hz), if_neg hz]
    rw [hq]
  · exact fun h => bulkHit_normTitle t h

/-- C5 witness: summary "delete all events" is normalized to the empty
sentinel and the query is issued with no title filter. -/
theorem C5_witness :
    (∃ rest, (delete_event 330 19884 stubSvc "cal"
        (Json.obj [("summary", Json.str "delete all events")])).calls =
      CalCall.list ⟨"cal",
        some (.str (DT.isoformat ⟨19884, 0, 0, 0, 0, some 330⟩)),
        some (.str (DT.isoformat ⟨19884, 23, 59, 59, 999999, some 330⟩)),
        none, true, none, none⟩ :: rest) ∧
    (bulkHit "delete all events" = true → normTitleStr "delete all events" = "") :=
  C5_bulk_sentinel 19884 stubSvc "cal"
    (Json.obj [("summary", Json.str "delete all events")]) Json.null Json.null
    (.str (DT.isoformat ⟨19884, 0, 0, 0, 0, some 330⟩))
    (.str (DT.isoformat ⟨19884, 23, 59, 59, 999999, some 330⟩))
    "delete all events" rfl rfl rfl
    (resolveDeleteWindow_default 19884 Json.null Json.null rfl)

/-- The body with which `create_event` issues its insert call, under the
usual field hypotheses with `end_time` absent: the resolved end is
`start + 1 hour`. -/
theorem create_event_calls (svc : Service) (cid : String) (ed sm desc et0 : Json)
    (s : String) (dt : DT)
    (hsv : pyGet ed "start_time" Json.null = .ok (.str s))
    (hsm : pyGet ed "summary" Json.null = .ok sm)
    (hsT : s ≠ "") (hsmT : pyTruthy sm = true)
    (het : pyGet ed "end_time" Json.null = .ok et0)
    (hetf : pyTruthy et0 = false)
    (hdesc : pyGet ed "description" (.str "Created by AI Calendar Assistant") = .ok desc)
    (hp : parseIso s = some dt) :
    (create_event svc cid ed).calls = [CalCall.insert cid (Json.obj
      [("summary", sm),
       ("start", Json.obj [("dateTime", Json.str s),
         ("timeZone", Json.str "Asia/Kolkata")]),
       ("end", Json.obj [("dateTime", Json.str ((dt.addUsec usecPerHour).isoformat)),
         ("timeZone", Json.str "Asia/Kolkata")]),
       ("description", desc)])] := by
  have hsT2 : pyTruthy (Json.str s) = true := (pyTruthy_str_iff s).mpr hsT
  have hsub1 := pyGet_truthy_subscr ed "start_time" (.str s) hsv hsT2
  have hsub2 := pyGet_truthy_subscr ed "summary" sm hsm hsmT
  unfold create_event
  simp only [bind, Except.bind, pure, Except.pure, hsv, hsm, hsub1, hsub2, het,
    hdesc, hsT2, hsmT, hetf, if_true, if_false, Bool.false_eq_true, ite_true,
    ite_false, List.append_nil, List.nil_append, List.isEmpty_nil]
  unfold pyFromIso
  simp only [hp]
  cases hins : svc.insertResult (Json.obj
      [("summary", sm),
       ("start", Json.obj [("dateTime", Json.str s),
         ("timeZone", Json.str "Asia/Kolkata")]),
       ("end", Json.obj [("dateTime", Json.str ((dt.addUsec usecPerHour).isoformat)),
         ("timeZone", Json.str "Asia/Kolkata")]),
       ("description", desc)]) with
  | error m => rfl
  | ok v => rfl

/-- C8: with a start time present and an end time absent, the delete
handler resolves `end = start + 1 day` (next civil day, same time of day,
for a +05:30 start) while the create handler resolves
`end = start + 1 hour` (one hour later on the wall clock, same offset). -/
theorem C8_default_end_asymmetry
    (today : Int) (svc : Service) (cid : String) (ed t0 tn et0 : Json)
    (s : String) (dt : DT)
    (hsum : pyGet ed "summary" (.str "") = .ok t0)
    (hst : pyGet ed "start_time" Json.null = .ok (.str s))
    (het : pyGet ed "end_time" Json.null = .ok et0)
    (hnt : normalizeTitle t0 = .ok tn)
    (hsT : s ≠ "") (hp : parseIso s = some dt) (hv : dt.Valid)
    (htz : dt.tz = some 330) (hetf : pyTruthy et0 = false)
    (svc' : Service) (cid' : String) (ed' sm desc et0' : Json)
    (s' : String) (dt' : DT)
    (hsv' : pyGet ed' "start_time" Json.null = .ok (.str s'))
    (hsm' : pyGet ed' "summary" Json.null = .ok sm)
    (hsT' : s' ≠ "") (hsmT : pyTruthy sm = true)
    (het' : pyGet ed' "end_time" Json.null = .ok et0')
    (hetf' : pyTruthy et0' = false)
    (hdesc : pyGet ed' "description" (.str "Created by AI Calendar Assistant") = .ok desc)
    (hp' : parseIso s' = some dt') :
    (∃ q rest, (delete_event 330 today svc cid ed).calls = CalCall.list q :: rest ∧
      q.timeMin = some (.str s) ∧
      q.timeMax = some (.str (DT.isoformat
        ⟨dt.day + 1, dt.hour, dt.minute, dt.second, dt.usec, some 330⟩))) ∧
    (∃ body, (create_event svc' cid' ed').calls = [CalCall.insert cid' body] ∧
      jGet2 body "end" "dateTime" =
        .ok (.str (DT.isoformat (dt'.addUsec usecPerHour))) ∧
      (dt'.addUsec usecPerHour).wallUsec = dt'.wallUsec + usecPerHour ∧
      (dt'.addUsec usecPerHour).tz = dt'.tz) := by
  constructor
  · have hwin := resolveDeleteWindow_plus_day today s et0 dt
      ((pyTruthy_str_iff s).mpr hsT) hp hetf
    have hday : dt.addUsec usecPerDay =
        ⟨dt.day + 1, dt.hour, dt.minute, dt.second, dt.usec, dt.tz⟩ :=
      addUsec_day dt hv
    have hast : pyAstimezone 330 330 (dt.addUsec usecPerDay) =
        ⟨dt.day + 1, dt.hour, dt.minute, dt.second, dt.usec, some 330⟩ := by
      rw [hday]
      rw [astimezone_id 330 ⟨dt.day + 1, dt.hour, dt.minute, dt.second, dt.usec, dt.tz⟩
        ⟨hv.1, hv.2.1, hv.2.2.1, hv.2.2.2⟩ (by rw [htz]; rfl)]
    rw [delete_event_run 330 today svc cid ed t0 (.str s) et0 tn (.str s)
      (.str ((pyAstimezone 330 330 (dt.addUsec usecPerDay)).isoformat))
      hsum hst het hnt hwin]
    obtain ⟨rest, hr⟩ := deleteTryPart_calls svc cid tn (.str s)
      (.str ((pyAstimezone 330 330 (dt.addUsec usecPerDay)).isoformat))
    refine ⟨_, rest, hr, rfl, ?_⟩
    rw [hast]
  · refine ⟨_, create_event_calls svc' cid' ed' sm desc et0' s' dt'
      hsv' hsm' hsT' hsmT het' hetf' hdesc hp', ?_, addUsec_wall dt' usecPerHour,
      addUsec_tz dt' usecPerHour⟩
    rfl

/-- C8 witness: delete start `2024-06-10T09:00:00+05:30` resolves end
`2024-06-11T09:00:00+05:30`; create start `2024-06-10T14:00:00+05:30`
resolves end `2024-06-10T15:00:00+05:30`. -/
theorem C8_witness :
    ((∃ q rest, (delete_event 330 19884 stubSvc "cal"
        (Json.obj [("summary", Json.str "Standup"),
          ("start_time", Json.str "2024-06-10T09:00:00+05:30")])).calls =
        CalCall.list q :: rest ∧
      q.timeMin = some (.str "2024-06-10T09:00:00+05:30") ∧
      q.timeMax = some (.str (DT.isoformat
        ⟨19884 + 1, 9, 0, 0, 0, some 330⟩))) ∧
    (∃ body, (create_event stubSvc "cal"
        (Json.obj [("summary", Json.str "Mtg"),
          ("start_time", Json.str "2024-06-10T14:00:00+05:30")])).calls =
        [CalCall.insert "cal" body] ∧
      jGet2 body "end" "dateTime" =
        .ok (.str (DT.isoformat (DT.addUsec ⟨19884, 14, 0, 0, 0, some 330⟩
          usecPerHour))) ∧
      (DT.addUsec ⟨19884, 14, 0, 0, 0, some 330⟩ usecPerHour).wallUsec =
        (⟨19884, 14, 0, 0, 0, some 330⟩ : DT).wallUsec + usecPerHour ∧
      (DT.addUsec ⟨19884, 14, 0, 0, 0, some 330⟩ usecPerHour).tz =
        (⟨19884, 14, 0, 0, 0, some 330⟩ : DT).tz)) ∧
    DT.isoformat ⟨19884 + 1, 9, 0, 0, 0, some 330⟩ = "2024-06-11T09:00:00+05:30" ∧
    DT.isoformat (DT.addUsec ⟨19884, 14, 0, 0, 0, some 330⟩ usecPerHour) =
      "2024-06-10T15:00:00+05:30" :=
  ⟨C8_default_end_asymmetry 19884 stubSvc "cal"
    (Json.obj [("summary", Json.str "Standup"),
      ("start_time", Json.str "2024-06-10T09:00:00+05:30")])
    (.str "Standup") (.str "Standup") Json.null
    "2024-06-10T09:00:00+05:30" ⟨19884, 9, 0, 0, 0, some 330⟩
    rfl rfl rfl rfl (by decide) rfl (by decide) rfl rfl
    stubSvc "cal"
    (Json.obj [("summary", Json.str "Mtg"),
      ("start_time", Json.str "2024-06-10T14:00:00+05:30")])
    (.str "Mtg") (.str "Created by AI Calendar Assistant") Json.null
    "2024-06-10T14:00:00+05:30" ⟨19884, 14, 0, 0, 0, some 330⟩
    rfl rfl (by decide) rfl rfl rfl rfl rfl,
   rfl, rfl⟩

/-- C7: in bulk delete, matched events are deleted one by one in list
order; when the delete call for some event fails, the earlier deletions
have all been issued (and are not undone), the failing call itself was
issued, the error is reported, and no later event is deleted. -/
theorem C7_bulk_delete_stops (today : Int) (svc : Service) (cid : String)
    (ed t0 tn st0 et0 smin smax : Json)
    (pre : List (Json × Json)) (evBad idBad : Json) (post : List Json)
    (failMsg : String)
    (hsum : pyGet ed "summary" (.str "") = .ok t0)
    (hst : pyGet ed "start_time" Json.null = .ok st0)
    (het : pyGet ed "end_time" Json.null = .ok et0)
    (hnt : normalizeTitle t0 = .ok tn)
    (hw : resolveDeleteWindow 330 today st0 et0 = .ok (smin, smax))
    (hlist : svc.listResult ⟨cid, some smin, some smax,
        (if pyTruthy tn then some tn else none), true, none, none⟩ =
      .ok (Json.obj [("items", Json.arr (pre.map Prod.fst ++ evBad :: post))]))
    (hids : ∀ p ∈ pre, pySubscrStr p.1 "id" = .ok p.2)
    (hok : ∀ p ∈ pre, svc.deleteResult p.2 = .ok ())
    (hb1 : pySubscrStr evBad "id" = .ok idBad)
    (hb2 : svc.deleteResult idBad = .error failMsg) :
    delete_event 330 today svc cid ed =
      ⟨CalCall.list ⟨cid, some smin, some smax,
          (if pyTruthy tn then some tn else none), true, none, none⟩ ::
        (pre.map (fun p => CalCall.del cid p.2) ++ [CalCall.del cid idBad]),
       [.error ("Error while deleting events: " ++ failMsg)], none⟩ := by
  rw [delete_event_run 330 today svc cid ed t0 st0 et0 tn smin smax
    hsum hst het hnt hw]
  unfold deleteTryPart
  dsimp only
  rw [hlist]
  dsimp only
  have hitems : pyGet (Json.obj [("items",
      Json.arr (pre.map Prod.fst ++ evBad :: post))]) "items" (Json.arr []) =
      .ok (Json.arr (pre.map Prod.fst ++ evBad :: post)) := rfl
  rw [hitems]
  dsimp only
  have hne : (pre.map Prod.fst ++ evBad :: post).isEmpty = false := by
    cases hpre : pre.map Prod.fst with
    | nil => rfl
    | cons x xs => rfl
  have htr : pyTruthy (Json.arr (pre.map Prod.fst ++ evBad :: post)) = true := by
    have hq : pyTruthy (Json.arr (pre.map Prod.fst ++ evBad :: post)) =
        !(pre.map Prod.fst ++ evBad :: post).isEmpty := rfl
    rw [hq, hne]
    rfl
  rw [if_pos htr]
  try dsimp only
  rw [deleteLoop_fail svc cid pre evBad idBad post failMsg hids hok hb1 hb2]

/-- C7 witness: three matching events where the second delete call fails —
exactly the first is deleted, the second call is issued and fails, the
error is reported, and the third is untouched. -/
theorem C7_witness :
    delete_event 330 19884 c7svc "cal" (Json.obj []) =
      ⟨[CalCall.list ⟨"cal",
          some (.str (DT.isoformat ⟨19884, 0, 0, 0, 0, some 330⟩)),
          some (.str (DT.isoformat ⟨19884, 23, 59, 59, 999999, some 330⟩)),
          none, true, none, none⟩,
        CalCall.del "cal" (Json.str "a"), CalCall.del "cal" (Json.str "b")],
       [.error ("Error while deleting events: " ++ "boom")], none⟩ :=
  C7_bulk_delete_stops 19884 c7svc "cal" (Json.obj []) (.str "") (.str "")
    Json.null Json.null
    (.str (DT.isoformat ⟨19884, 0, 0, 0, 0, some 330⟩))
    (.str (DT.isoformat ⟨19884, 23, 59, 59, 999999, some 330⟩))
    [(idOnlyEvent "a", Json.str "a")] (idOnlyEvent "b") (Json.str "b")
    [idOnlyEvent "c"] "boom"
    rfl rfl rfl rfl
    (resolveDeleteWindow_default 19884 Json.null Json.null rfl)
    rfl
    (by intro p hp; rw [List.mem_singleton] at hp; subst hp; rfl)
    (by intro p hp; rw [List.mem_singleton] at hp; subst hp; rfl)
    rfl rfl

/-- Running `reschedule_event` under the usual field hypotheses, with a
truthy title and a non-empty match list, reduces it to the matched-event
branch prefixed by the list query. -/
theorem reschedule_run (svc : Service) (cid : String) (ed : Json)
    (t nst0 net0 resp items : Json)
    (hsum : pyGet ed "summary" Json.null = .ok t)
    (hnst : pyGet ed "new_start_time" Json.null = .ok nst0)
    (hnet : pyGet ed "new_end_time" Json.null = .ok net0)
    (htt : pyTruthy t = true)
    (hlist : svc.listResult ⟨cid, none, none, some t, true, none, some 1⟩ = .ok resp)
    (hitems : pyGet resp "items" (Json.arr []) = .ok items)
    (hit : pyTruthy items = true) :
    reschedule_event svc cid ed =
      (match reschedMatched svc cid t nst0 items with
       | .ok (cs, ms) =>
         ⟨CalCall.list ⟨cid, none, none, some t, true, none, some 1⟩ :: cs, ms, none⟩
       | .error (cs, m) =>
         ⟨CalCall.list ⟨cid, none, none, some t, true, none, some 1⟩ :: cs,
          [.error ("Error while rescheduling event: " ++ m)], none⟩) := by
  unfold reschedule_event
  simp only [bind, Except.bind, pure, Except.pure, hsum, hnst, hnet]
  rw [if_neg (show ¬(pyTruthy t = false) by rw [htt]; simp)]
  rw [hlist]
  dsimp only
  rw [hitems]
  dsimp only
  rw [if_neg (show ¬(pyTruthy items = false) by rw [hit]; simp)]

/-- Running the matched-event branch under per-field hypotheses: the
resolved start replaces the time of day with the original's exactly when
the supplied start has `hour == 0 and minute == 0`, the new end is the
resolved start plus the original duration, and one update call is issued
with the mutated event. -/
theorem reschedMatched_run (svc : Service) (cid : String) (t nst0 : Json)
    (ev : Json) (evrest : List Json) (idv startObj endObj sdt edt : Json)
    (os oe : DT) (dur : Int) (ns : DT)
    (hid : pySubscrStr ev "id" = .ok idv)
    (hstart : pySubscrStr ev "start" = .ok startObj)
    (hsdt : pySubscrStr startObj "dateTime" = .ok sdt)
    (hos : pyFromIso sdt = .ok os)
    (hend : pySubscrStr ev "end" = .ok endObj)
    (hedt : pySubscrStr endObj "dateTime" = .ok edt)
    (hoe : pyFromIso edt = .ok oe)
    (hdur : pySubDT oe os = .ok dur)
    (hns : pyFromIso nst0 = .ok ns) :
    reschedMatched svc cid t nst0 (Json.arr (ev :: evrest)) =
      (let p : DT × Json :=
        if ns.hour = 0 ∧ ns.minute = 0 then
          ((pyCombine ns.day (DT.time os)).replaceTz os.tz,
           Json.str ((pyCombine ns.day (DT.time os)).replaceTz os.tz).isoformat)
        else (ns, nst0)
       let ev2 := jSet (jSet ev "start" (jSet startObj "dateTime" p.2)) "end"
         (jSet endObj "dateTime" (Json.str ((p.1.addUsec dur).isoformat)))
       match svc.updateResult idv ev2 with
       | .error m => .error ([.update cid idv ev2], m)
       | .ok _ =>
         .ok ([.update cid idv ev2],
           [.success ("✅ Rescheduled event '" ++ pyStr t ++ "' to " ++
             strftimeLong p.1)])) := by
  unfold reschedMatched
  have h0 : pyIndex0 (Json.arr (ev :: evrest)) = .ok ev := rfl
  rw [h0]
  dsimp only
  rw [hid]
  dsimp only
  rw [hstart]
  dsimp only
  rw [hsdt]
  dsimp only
  rw [hos]
  dsimp only
  rw [hend]
  dsimp only
  rw [hedt]
  dsimp only
  rw [hoe]
  dsimp only
  rw [hdur]
  dsimp only
  rw [hns]

/-- The calls issued after a match are the list query followed by exactly
one update, whether or not the update succeeds. -/
theorem match_update_calls (svc : Service) (cid : String) (q0 : ListQuery)
    (idv ev2 : Json) (sMsg : Msg) :
    (match (match svc.updateResult idv ev2 with
       | .error m => (Except.error ([CalCall.update cid idv ev2], m) :
           Except (List CalCall × String) (List CalCall × List Msg))
       | .ok _ => .ok ([CalCall.update cid idv ev2], [sMsg])) with
     | .ok (cs, ms) => (⟨CalCall.list q0 :: cs, ms, none⟩ : HRes)
     | .error (cs, m) =>
       ⟨CalCall.list q0 :: cs,
        [.error ("Error while rescheduling event: " ++ m)], none⟩).calls =
    [CalCall.list q0, CalCall.update cid idv ev2] := by
  cases h : svc.updateResult idv ev2 <;> rfl

/-- Reading back the mutated start `dateTime` of the update body. -/
theorem jGet2_mutated_start (ev startObj endObj v w : Json)
    (kvs : List (String × Json)) (hev : ev = .obj kvs)
    (skvs : List (String × Json)) (hso : startObj = .obj skvs) :
    jGet2 (jSet (jSet ev "start" (jSet startObj "dateTime" v)) "end"
      (jSet endObj "dateTime" w)) "start" "dateTime" = .ok v := by
  subst hev hso
  unfold jGet2 jSet pySubscrStr
  dsimp only
  rw [jlookup_setAssoc_other _ "start" "end" _ (by decide)]
  rw [jlookup_setAssoc_self]
  dsimp only
  rw [jlookup_setAssoc_self]

/-- Reading back the mutated end `dateTime` of the update body. -/
theorem jGet2_mutated_end (ev startObj endObj v w : Json)
    (kvs : List (String × Json)) (hev : ev = .obj kvs)
    (ekvs : List (String × Json)) (heo : endObj = .obj ekvs) :
    jGet2 (jSet (jSet ev "start" (jSet startObj "dateTime" v)) "end"
      (jSet endObj "dateTime" w)) "end" "dateTime" = .ok w := by
  subst hev heo
  unfold jGet2 jSet pySubscrStr
  dsimp only
  rw [jlookup_setAssoc_self]
  dsimp only
  rw [jlookup_setAssoc_self]

/-- C3 (amended): for every matched original event and supplied
`new_start_time`, the reschedule handler replaces the supplied value's time
of day with the original start's time of day (keeping the original start's
tzinfo) exactly when the supplied value's hour and minute are both zero —
seconds and microseconds are not examined — and otherwise uses the supplied
`new_start_time` string verbatim in the update body. -/
theorem C3_reschedule_day_only (svc : Service) (cid : String) (ed : Json)
    (t nst : String) (net0 resp : Json) (ev : Json) (evrest : List Json)
    (idv startObj endObj : Json) (oss oes : String) (os oe : DT) (dur : Int)
    (ns : DT)
    (hsum : pyGet ed "summary" Json.null = .ok (.str t)) (htt : t ≠ "")
    (hnst : pyGet ed "new_start_time" Json.null = .ok (.str nst))
    (hnet : pyGet ed "new_end_time" Json.null = .ok net0)
    (hlist : svc.listResult ⟨cid, none, none, some (.str t), true, none, some 1⟩ =
      .ok resp)
    (hitems : pyGet resp "items" (Json.arr []) = .ok (Json.arr (ev :: evrest)))
    (hid : pySubscrStr ev "id" = .ok idv)
    (hstart : pySubscrStr ev "start" = .ok startObj)
    (hsdt : pySubscrStr startObj "dateTime" = .ok (.str oss))
    (hos : parseIso oss = some os)
    (hend : pySubscrStr ev "end" = .ok endObj)
    (hedt : pySubscrStr endObj "dateTime" = .ok (.str oes))
    (hoe : parseIso oes = some oe)
    (hdur : pySubDT oe os = .ok dur)
    (hns : parseIso nst = some ns) :
    ∃ body rest,
      (reschedule_event svc cid ed).calls =
        CalCall.list ⟨cid, none, none, some (.str t), true, none, some 1⟩ ::
          CalCall.update cid idv body :: rest ∧
      jGet2 body "start" "dateTime" =
        .ok (if ns.hour = 0 ∧ ns.minute = 0
          then Json.str ((pyCombine ns.day (DT.time os)).replaceTz os.tz).isoformat
          else Json.str nst) := by
  obtain ⟨kvs, hev, _⟩ := pySubscrStr_ok ev "start" startObj hstart
  obtain ⟨skvs, hso, _⟩ := pySubscrStr_ok startObj "dateTime" (.str oss) hsdt
  rw [reschedule_run svc cid ed (.str t) (.str nst) net0 resp
    (Json.arr (ev :: evrest)) hsum hnst hnet ((pyTruthy_str_iff t).mpr htt)
    hlist hitems rfl]
  rw [reschedMatched_run svc cid (.str t) (.str nst) ev evrest idv startObj endObj
    (.str oss) (.str oes) os oe dur ns hid hstart hsdt
    (show pyFromIso (.str oss) = .ok os by unfold pyFromIso; dsimp only; rw [hos])
    hend hedt (show pyFromIso (.str oes) = .ok oe by unfold pyFromIso; dsimp only; rw [hoe])
    hdur (show pyFromIso (.str nst) = .ok ns by unfold pyFromIso; dsimp only; rw [hns])]
  dsimp only
  by_cases hc : ns.hour = 0 ∧ ns.minute = 0
  · simp only [if_pos hc]
    exact ⟨_, [], match_update_calls svc cid _ idv _ _,
      jGet2_mutated_start ev startObj endObj _ _ kvs hev skvs hso⟩
  · simp only [if_neg hc]
    exact ⟨_, [], match_update_calls svc cid _ idv _ _,
      jGet2_mutated_start ev startObj endObj _ _ kvs hev skvs hso⟩

/-- C3 counterexample: `new_start_time = 2024-06-07T00:00:30+05:30` has
clock time 00:00:30, not 00:00:00, yet the handler still replaces the time
of day with the original's 15:00:00 instead of using it verbatim (the code
checks only hour and minute). -/
theorem C3_counterexample :
    (∃ body,
      (reschedule_event standupSvc "cal"
        (reschedIntent (Json.str "2024-06-07T00:00:30+05:30"))).calls =
        [CalCall.list ⟨"cal", none, none, some (.str "Standup"), true, none, some 1⟩,
         CalCall.update "cal" (Json.str "e1") body] ∧
      jGet2 body "start" "dateTime" = .ok (.str "2024-06-07T15:00:00+05:30")) ∧
    ("2024-06-07T15:00:00+05:30" : String) ≠ "2024-06-07T00:00:30+05:30" :=
  ⟨⟨Json.obj [("id", Json.str "e1"), ("summary", Json.str "Standup"),
    ("start", Json.obj [("dateTime", Json.str "2024-06-07T15:00:00+05:30")]),
    ("end", Json.obj [("dateTime", Json.str "2024-06-07T16:00:00+05:30")])],
    rfl, rfl⟩, by decide⟩

/-- C3 witness: the spec's example — a date-only (midnight) new start moves
the 15:00 event to the new date at 15:00. -/
theorem C3_witness :
    ∃ body rest,
      (reschedule_event standupSvc "cal"
        (reschedIntent (Json.str "2024-06-07T00:00:00+05:30"))).calls =
        CalCall.list ⟨"cal", none, none, some (.str "Standup"), true, none, some 1⟩ ::
          CalCall.update "cal" (Json.str "e1") body :: rest ∧
      jGet2 body "start" "dateTime" = .ok (.str "2024-06-07T15:00:00+05:30") :=
  C3_reschedule_day_only standupSvc "cal"
    (reschedIntent (Json.str "2024-06-07T00:00:00+05:30"))
    "Standup" "2024-06-07T00:00:00+05:30" Json.null
    (Json.obj [("items", Json.arr [standupEvent])]) standupEvent []
    (Json.str "e1")
    (Json.obj [("dateTime", Json.str "2024-06-05T15:00:00+05:30")])
    (Json.obj [("dateTime", Json.str "2024-06-05T16:00:00+05:30")])
    "2024-06-05T15:00:00+05:30" "2024-06-05T16:00:00+05:30"
    ⟨19879, 15, 0, 0, 0, some 330⟩ ⟨19879, 16, 0, 0, 0, some 330⟩
    3600000000 ⟨19881, 0, 0, 0, 0, some 330⟩
    rfl (by decide) rfl rfl rfl rfl rfl rfl rfl rfl rfl rfl rfl rfl rfl

/-- C6: for every reschedule of a matched event, the update body's end is
the resolved new start plus the original event's duration
(`orig_end - orig_start`), whatever `new_end_time` the Intent carried (the
handler reads it but overwrites it before use). -/
theorem C6_duration_preserved (svc : Service) (cid : String) (ed : Json)
    (t nst : String) (net0 resp : Json) (ev : Json) (evrest : List Json)
    (idv startObj endObj : Json) (oss oes : String) (os oe : DT) (dur : Int)
    (ns : DT)
    (hsum : pyGet ed "summary" Json.null = .ok (.str t)) (htt : t ≠ "")
    (hnst : pyGet ed "new_start_time" Json.null = .ok (.str nst))
    (hnet : pyGet ed "new_end_time" Json.null = .ok net0)
    (hlist : svc.listResult ⟨cid, none, none, some (.str t), true, none, some 1⟩ =
      .ok resp)
    (hitems : pyGet resp "items" (Json.arr []) = .ok (Json.arr (ev :: evrest)))
    (hid : pySubscrStr ev "id" = .ok idv)
    (hstart : pySubscrStr ev "start" = .ok startObj)
    (hsdt : pySubscrStr startObj "dateTime" = .ok (.str oss))
    (hos : parseIso oss = some os)
    (hend : pySubscrStr ev "end" = .ok endObj)
    (hedt : pySubscrStr endObj "dateTime" = .ok (.str oes))
    (hoe : parseIso oes = some oe)
    (hdur : pySubDT oe os = .ok dur)
    (hns : parseIso nst = some ns) :
    ∃ body rest,
      (reschedule_event svc cid ed).calls =
        CalCall.list ⟨cid, none, none, some (.str t), true, none, some 1⟩ ::
          CalCall.update cid idv body :: rest ∧
      jGet2 body "end" "dateTime" =
        .ok (.str (DT.isoformat ((resolvedNewStart ns os).addUsec dur))) ∧
      ((resolvedNewStart ns os).addUsec dur).wallUsec =
        (resolvedNewStart ns os).wallUsec + dur ∧
      ((resolvedNewStart ns os).addUsec dur).tz = (resolvedNewStart ns os).tz := by
  obtain ⟨kvs, hev, _⟩ := pySubscrStr_ok ev "start" startObj hstart
  obtain ⟨ekvs, heo, _⟩ := pySubscrStr_ok endObj "dateTime" (.str oes) hedt
  rw [reschedule_run svc cid ed (.str t) (.str nst) net0 resp
    (Json.arr (ev :: evrest)) hsum hnst hnet ((pyTruthy_str_iff t).mpr htt)
    hlist hitems rfl]
  rw [reschedMatched_run svc cid (.str t) (.str nst) ev evrest idv startObj endObj
    (.str oss) (.str oes) os oe dur ns hid hstart hsdt
    (show pyFromIso (.str oss) = .ok os by unfold pyFromIso; dsimp only; rw [hos])
    hend hedt (show pyFromIso (.str oes) = .ok oe by unfold pyFromIso; dsimp only; rw [hoe])
    hdur (show pyFromIso (.str nst) = .ok ns by unfold pyFromIso; dsimp only; rw [hns])]
  dsimp only
  unfold resolvedNewStart
  by_cases hc : ns.hour = 0 ∧ ns.minute = 0
  · simp only [if_pos hc]
    exact ⟨_, [], match_update_calls svc cid _ idv _ _,
      jGet2_mutated_end ev startObj endObj _ _ kvs hev ekvs heo,
      addUsec_wall _ dur, addUsec_tz _ dur⟩
  · simp only [if_neg hc]
    exact ⟨_, [], match_update_calls svc cid _ idv _ _,
      jGet2_mutated_end ev startObj endObj _ _ kvs hev ekvs heo,
      addUsec_wall _ dur, addUsec_tz _ dur⟩

/-- C6 witness: the spec's example — original 15:00–16:00 (duration 1h),
explicit new start 10:30 on 2024-06-07 → new end 11:30, regardless of any
supplied `new_end_time`. -/
theorem C6_witness :
    (∃ body rest,
      (reschedule_event standupSvc "cal"
        (reschedIntent (Json.str "2024-06-07T10:30:00+05:30"))).calls =
        CalCall.list ⟨"cal", none, none, some (.str "Standup"), true, none, some 1⟩ ::
          CalCall.update "cal" (Json.str "e1") body :: rest ∧
      jGet2 body "end" "dateTime" =
        .ok (.str (DT.isoformat ((resolvedNewStart ⟨19881, 10, 30, 0, 0, some 330⟩
          ⟨19879, 15, 0, 0, 0, some 330⟩).addUsec 3600000000))) ∧
      ((resolvedNewStart ⟨19881, 10, 30, 0, 0, some 330⟩
          ⟨19879, 15, 0, 0, 0, some 330⟩).addUsec 3600000000).wallUsec =
        (resolvedNewStart ⟨19881, 10, 30, 0, 0, some 330⟩
          ⟨19879, 15, 0, 0, 0, some 330⟩).wallUsec + 3600000000 ∧
      ((resolvedNewStart ⟨19881, 10, 30, 0, 0, some 330⟩
          ⟨19879, 15, 0, 0, 0, some 330⟩).addUsec 3600000000).tz =
        (resolvedNewStart ⟨19881, 10, 30, 0, 0, some 330⟩
          ⟨19879, 15, 0, 0, 0, some 330⟩).tz) ∧
    DT.isoformat ((resolvedNewStart ⟨19881, 10, 30, 0, 0, some 330⟩
      ⟨19879, 15, 0, 0, 0, some 330⟩).addUsec 3600000000) =
      "2024-06-07T11:30:00+05:30" :=
  ⟨C6_duration_preserved standupSvc "cal"
    (reschedIntent (Json.str "2024-06-07T10:30:00+05:30"))
    "Standup" "2024-06-07T10:30:00+05:30" Json.null
    (Json.obj [("items", Json.arr [standupEvent])]) standupEvent []
    (Json.str "e1")
    (Json.obj [("dateTime", Json.str "2024-06-05T15:00:00+05:30")])
    (Json.obj [("dateTime", Json.str "2024-06-05T16:00:00+05:30")])
    "2024-06-05T15:00:00+05:30" "2024-06-05T16:00:00+05:30"
    ⟨19879, 15, 0, 0, 0, some 330⟩ ⟨19879, 16, 0, 0, 0, some 330⟩
    3600000000 ⟨19881, 10, 30, 0, 0, some 330⟩
    rfl (by decide) rfl rfl rfl rfl rfl rfl rfl rfl rfl rfl rfl rfl rfl, rfl⟩

/-- C9: a reschedule Intent with a non-empty summary but no
`new_start_time` is not rejected up front: the title list query is issued,
and on a matched (well-formed) event the handler fails inside its `try`
when `datetime.fromisoformat(None)` raises `TypeError`; the failure is
caught and reported as a reschedule error, and no update call is made. -/
theorem C9_missing_new_start (svc : Service) (cid : String) (ed : Json)
    (t : String) (net0 resp : Json) (ev : Json) (evrest : List Json)
    (idv startObj endObj : Json) (oss oes : String) (os oe : DT) (dur : Int)
    (hsum : pyGet ed "summary" Json.null = .ok (.str t)) (htt : t ≠ "")
    (hnst : pyGet ed "new_start_time" Json.null = .ok Json.null)
    (hnet : pyGet ed "new_end_time" Json.null = .ok net0)
    (hlist : svc.listResult ⟨cid, none, none, some (.str t), true, none, some 1⟩ =
      .ok resp)
    (hitems : pyGet resp "items" (Json.arr []) = .ok (Json.arr (ev :: evrest)))
    (hid : pySubscrStr ev "id" = .ok idv)
    (hstart : pySubscrStr ev "start" = .ok startObj)
    (hsdt : pySubscrStr startObj "dateTime" = .ok (.str oss))
    (hos : parseIso oss = some os)
    (hend : pySubscrStr ev "end" = .ok endObj)
    (hedt : pySubscrStr endObj "dateTime" = .ok (.str oes))
    (hoe : parseIso oes = some oe)
    (hdur : pySubDT oe os = .ok dur) :
    reschedule_event svc cid ed =
      ⟨[CalCall.list ⟨cid, none, none, some (.str t), true, none, some 1⟩],
       [.error ("Error while rescheduling event: " ++ excStr PyExc.typeErr)],
       none⟩ := by
  have hm : reschedMatched svc cid (.str t) Json.null (Json.arr (ev :: evrest)) =
      .error ([], excStr PyExc.typeErr) := by
    unfold reschedMatched
    have h0 : pyIndex0 (Json.arr (ev :: evrest)) = .ok ev := rfl
    rw [h0]
    dsimp only
    rw [hid]
    dsimp only
    rw [hstart]
    dsimp only
    rw [hsdt]
    dsimp only
    rw [show pyFromIso (.str oss) = .ok os by unfold pyFromIso; dsimp only; rw [hos]]
    dsimp only
    rw [hend]
    dsimp only
    rw [hedt]
    dsimp only
    rw [show pyFromIso (.str oes) = .ok oe by unfold pyFromIso; dsimp only; rw [hoe]]
    dsimp only
    rw [hdur]
    rfl
  rw [reschedule_run svc cid ed (.str t) Json.null net0 resp
    (Json.arr (ev :: evrest)) hsum hnst hnet ((pyTruthy_str_iff t).mpr htt)
    hlist hitems rfl]
  rw [hm]

/-- C9 witness: a reschedule of `Standup` with no `new_start_time` issues
only the list query and reports a reschedule error. -/
theorem C9_witness :
    reschedule_event standupSvc "cal" (Json.obj [("summary", Json.str "Standup")]) =
      ⟨[CalCall.list ⟨"cal", none, none, some (.str "Standup"), true, none, some 1⟩],
       [.error ("Error while rescheduling event: " ++ excStr PyExc.typeErr)],
       none⟩ :=
  C9_missing_new_start standupSvc "cal" (Json.obj [("summary", Json.str "Standup")])
    "Standup" Json.null (Json.obj [("items", Json.arr [standupEvent])])
    standupEvent [] (Json.str "e1")
    (Json.obj [("dateTime", Json.str "2024-06-05T15:00:00+05:30")])
    (Json.obj [("dateTime", Json.str "2024-06-05T16:00:00+05:30")])
    "2024-06-05T15:00:00+05:30" "2024-06-05T16:00:00+05:30"
    ⟨19879, 15, 0, 0, 0, some 330⟩ ⟨19879, 16, 0, 0, 0, some 330⟩
    3600000000
    rfl (by decide) rfl rfl rfl rfl rfl rfl rfl rfl rfl rfl rfl rfl

end MaxCal
